import Mathlib

/-!
Verification development for the Gemini AI client service
(`src/lib/gemini-ai.ts`): a shallow embedding of its data model,
request orchestration, response recovery and mock synthesis engine,
followed by theorems settling the specification claims.

Text is modelled as `List Char` (JS strings are char sequences for the
purposes of this code).  Numbers appearing as confidence constants are
modelled as rationals.  The platform primitives (`fetch`, `JSON.parse`,
`Date`, `Math.random`, `navigator.onLine`) are supplied by an explicit
environment record.
-/

/-- Characters written via code points so that bracket/quote characters
never appear bare in the source. -/
def obr : Char := Char.ofNat 123

/-- Closing curly brace character. -/
def cbr : Char := Char.ofNat 125

/-- Opening square bracket character. -/
def osq : Char := Char.ofNat 91

/-- Closing square bracket character. -/
def csq : Char := Char.ofNat 93

/-- Backtick character. -/
def btk : Char := Char.ofNat 96

/-- Double-quote character. -/
def dqu : Char := Char.ofNat 34

/-- Model of a JS string: a sequence of characters. -/
abbrev Txt := List Char

/-- Whitespace predicate for the JS `trim` / `\s` class. -/
def isWsChar (ch : Char) : Bool :=
  ch = ' ' || ch = '\n' || ch = '\t' || ch = '\r'

/-- Model of `String.prototype.trim`. -/
def trimTxt (s : Txt) : Txt :=
  ((s.dropWhile isWsChar).reverse.dropWhile isWsChar).reverse

/-- Model of `String.prototype.startsWith`. -/
def startsWithT (pat s : Txt) : Bool := pat.isPrefixOf s

/-- Model of `String.prototype.endsWith`. -/
def endsWithT (pat s : Txt) : Bool := pat.isSuffixOf s

/-- Model of `String.prototype.includes`: substring containment. -/
def containsSub (s pat : Txt) : Bool :=
  match s with
  | [] => pat.isEmpty
  | _ :: rest => pat.isPrefixOf s || containsSub rest pat

/-- Model of `String.prototype.toLowerCase` (ASCII is all the source uses). -/
def lowerTxt (s : Txt) : Txt := s.map Char.toLower

/-- Decimal rendering of a number, as used by template literals. -/
def natTxt (n : Nat) : Txt := (Nat.repr n).data

/-- Model of a JS JSON value (numbers restricted to integers, which is all
the concrete inputs in this development use). -/
inductive JsonVal where
  | null
  | bool (b : Bool)
  | num (n : Int)
  | str (s : Txt)
  | arr (xs : List JsonVal)
  | obj (fields : List (Txt × JsonVal))

/-- Model of JS truthiness on JSON values: `null`, `false`, `0` and the
empty string are falsy; every array and object is truthy. -/
def jsTruthy : JsonVal → Bool
  | .null => false
  | .bool b => b
  | .num n => n != 0
  | .str s => !s.isEmpty
  | .arr _ => true
  | .obj _ => true

/-- Leading-whitespace skip for the JSON reader. -/
def skipWs (s : Txt) : Txt := s.dropWhile isWsChar

/-- Digit run at the head of the text, with the rest. -/
def takeDigits (s : Txt) : Txt × Txt :=
  (s.takeWhile Char.isDigit, s.dropWhile Char.isDigit)

/-- Numeric value of a digit run. -/
def digitsVal (s : Txt) : Nat :=
  s.foldl (fun acc ch => acc * 10 + (ch.toNat - '0'.toNat)) 0

mutual

/-- Fuel-indexed JSON value reader: one value plus the remaining text. -/
def parseVal : Nat → Txt → Option (JsonVal × Txt)
  | 0, _ => none
  | fuel + 1, s =>
    let s := skipWs s
    match s with
    | [] => none
    | ch :: rest =>
      if ch = obr then
        match skipWs rest with
        | c2 :: r2 =>
          if c2 = cbr then some (.obj [], r2)
          else parseObjItems fuel (skipWs rest)
        | [] => none
      else if ch = osq then
        match skipWs rest with
        | c2 :: r2 =>
          if c2 = csq then some (.arr [], r2)
          else parseArrItems fuel (skipWs rest)
        | [] => none
      else if ch = dqu then
        let body := rest.takeWhile (fun c => c != dqu)
        let rest2 := rest.dropWhile (fun c => c != dqu)
        match rest2 with
        | c2 :: r2 => if c2 = dqu then some (.str body, r2) else none
        | [] => none
      else if ch = 't' then
        if startsWithT ('r' :: 'u' :: 'e' :: []) rest then
          some (.bool true, rest.drop 3)
        else none
      else if ch = 'f' then
        if startsWithT ('a' :: 'l' :: 's' :: 'e' :: []) rest then
          some (.bool false, rest.drop 4)
        else none
      else if ch = 'n' then
        if startsWithT ('u' :: 'l' :: 'l' :: []) rest then
          some (.null, rest.drop 3)
        else none
      else if ch = '-' then
        match takeDigits rest with
        | ([], _) => none
        | (ds, r2) => some (.num (-(digitsVal ds : Int)), r2)
      else if ch.isDigit then
        match takeDigits s with
        | ([], _) => none
        | (ds, r2) => some (.num (digitsVal ds : Int), r2)
      else none

/-- Fuel-indexed reader for the items of a non-empty JSON array. -/
def parseArrItems : Nat → Txt → Option (JsonVal × Txt)
  | 0, _ => none
  | fuel + 1, s =>
    match parseVal fuel s with
    | none => none
    | some (v, rest) =>
      match skipWs rest with
      | c2 :: r2 =>
        if c2 = csq then some (.arr [v], r2)
        else if c2 = ',' then
          match parseArrItems fuel r2 with
          | some (.arr vs, r3) => some (.arr (v :: vs), r3)
          | _ => none
        else none
      | [] => none

/-- Fuel-indexed reader for the fields of a non-empty JSON object. -/
def parseObjItems : Nat → Txt → Option (JsonVal × Txt)
  | 0, _ => none
  | fuel + 1, s =>
    match skipWs s with
    | c0 :: r0 =>
      if c0 = dqu then
        let key := r0.takeWhile (fun c => c != dqu)
        match r0.dropWhile (fun c => c != dqu) with
        | c1 :: r1 =>
          if c1 = dqu then
            match skipWs r1 with
            | c2 :: r2 =>
              if c2 = ':' then
                match parseVal fuel r2 with
                | none => none
                | some (v, rest) =>
                  match skipWs rest with
                  | c3 :: r3 =>
                    if c3 = cbr then some (.obj [(key, v)], r3)
                    else if c3 = ',' then
                      match parseObjItems fuel r3 with
                      | some (.obj fs, r4) => some (.obj ((key, v) :: fs), r4)
                      | _ => none
                    else none
                  | [] => none
              else none
            | [] => none
          else none
        | [] => none
      else none
    | [] => none

end

/-- Model of the platform primitive `JSON.parse`, used to instantiate the
abstract parse function of the environment at concrete inputs.  Returns
`none` where `JSON.parse` throws (trailing garbage included). -/
def miniJsonParse (s : Txt) : Option JsonVal :=
  match parseVal (s.length + 1) s with
  | some (v, rest) => if (skipWs rest).isEmpty then some v else none
  | none => none

/-- Fence marker used by `cleanGeminiResponse` for the bare fence. -/
def fence3 : Txt := btk :: btk :: btk :: []

/-- Fence marker used by `cleanGeminiResponse` for the language-tagged fence. -/
def fenceJson : Txt := btk :: btk :: btk :: 'j' :: 's' :: 'o' :: 'n' :: []

/-- Greedy single match of the regex `o[\s\S]*c` (for brace or bracket
spans): from the first occurrence of `o` through the last occurrence of
`c` after it, `none` when no such span exists. -/
def matchSpan (o c : Char) (s : Txt) : Option Txt :=
  let t := s.dropWhile (fun ch => ch != o)
  let u := (t.reverse.dropWhile (fun ch => ch != c)).reverse
  if u.isEmpty then none else some u

/-- Embedding of `cleanGeminiResponse`: trim, strip a leading fenced-code
marker and a trailing fence, trim again, then narrow to a curly-brace span
if one matches, then narrow to a square-bracket span if one matches (the
two narrowing steps run in sequence, exactly as in the source). -/
def cleanGeminiResponse (s : Txt) : Txt :=
  let c0 := trimTxt s
  let c1 :=
    if startsWithT fenceJson c0 then c0.drop 7
    else if startsWithT fence3 c0 then c0.drop 3
    else c0
  let c2 := if endsWithT fence3 c1 then c1.take (c1.length - 3) else c1
  let c3 := trimTxt c2
  let c4 :=
    match matchSpan obr cbr c3 with
    | some m => m
    | none => c3
  match matchSpan osq csq c4 with
  | some m => m
  | none => c4

/-- Prefix of `l` through the last occurrence of `c`. -/
def takeToLast (c : Char) (l : Txt) : Txt :=
  (l.reverse.dropWhile (fun ch => ch != c)).reverse

/-- Leftmost match of the stage-3 pattern `(\x7b[\s\S]*\x7d|\[[\s\S]*\])`:
scan for the first position holding a brace-or-bracket span, preferring
the brace alternative at equal positions. -/
def stage3Scan : Txt → Option Txt
  | [] => none
  | ch :: rest =>
    if ch = obr && rest.contains cbr then some (obr :: takeToLast cbr rest)
    else if ch = osq && rest.contains csq then some (osq :: takeToLast csq rest)
    else stage3Scan rest

/-- Embedding of `safeJsonParse`, parameterised by the platform primitive
`JSON.parse` (`jp`): stage 1 parses the raw text directly, stage 2 parses
the cleaned text, stage 3 parses the first brace-or-bracket span of the
original text; `none` when all three stages fail. -/
def safeJsonParse (jp : Txt → Option JsonVal) (response : Txt) : Option JsonVal :=
  match jp response with
  | some v => some v
  | none =>
    match jp (cleanGeminiResponse response) with
    | some v => some v
    | none =>
      match stage3Scan response with
      | some span => jp span
      | none => none

/-- Market trend enumeration from the `MarketAnalysis` interface. -/
inductive Trend where
  | increasing
  | decreasing
  | stable
deriving DecidableEq

/-- Embedding of the `ProductCategory` interface. -/
structure ProductCategory where
  category : Txt
  confidence : ℚ
  subcategory : Option Txt
deriving DecidableEq

/-- Embedding of the `MarketAnalysis` interface. -/
structure MarketAnalysis where
  priceRange : Txt
  marketTrend : Trend
  bestTimeToBuy : Txt
  pricePrediction : Txt
  marketInsights : List Txt
deriving DecidableEq

/-- Embedding of the `ProductRecommendation` interface. -/
structure ProductRecommendation where
  productName : Txt
  reason : Txt
  category : Txt
  estimatedPrice : Txt
  confidence : ℚ
deriving DecidableEq

/-- Embedding of the `SmartSearchResult` interface. -/
structure SmartSearchResult where
  enhancedQuery : Txt
  categories : List ProductCategory
  marketAnalysis : MarketAnalysis
  recommendations : List ProductRecommendation
  searchTips : List Txt
deriving DecidableEq

/-- Split on a single character (used to model alternation in the
keyword regexes, whose patterns are bar-separated literal words). -/
def splitOnCh (sep : Char) : Txt → List Txt
  | [] => [[]]
  | ch :: rest =>
    let r := splitOnCh sep rest
    if ch = sep then [] :: r
    else
      match r with
      | [] => [[ch]]
      | h :: t => (ch :: h) :: t

/-- Model of `/w1|w2|…/i.test(query)` for a bar-separated pattern of
literal lowercase words: case-insensitive substring test. -/
def regexTestI (pat : Txt) (q : Txt) : Bool :=
  (splitOnCh '|' pat).any (fun p => containsSub (lowerTxt q) p)

/-- Split on the three-character separator used by `split(' - ')`. -/
def splitOnSep3 (a b c : Char) : Txt → List Txt
  | [] => [[]]
  | x :: y :: z :: r2 =>
    if x = a && y = b && z = c then [] :: splitOnSep3 a b c r2
    else
      match splitOnSep3 a b c (y :: z :: r2) with
      | [] => [[x]]
      | h :: t => (x :: h) :: t
  | x :: rest =>
    match splitOnSep3 a b c rest with
    | [] => [[x]]
    | h :: t => (x :: h) :: t

/-- Model of `list[i] || fb`: the element when present and truthy, the
fallback otherwise. -/
def getSplitOr (l : List Txt) (i : Nat) (fb : Txt) : Txt :=
  match l.get? i with
  | some t => if t.isEmpty then fb else t
  | none => fb

/-- Keyword pattern of the smartphone category group. -/
def pCatPhone : Txt := "phone|smartphone|mobile".data

/-- Keyword pattern of the computer category group. -/
def pCatLaptop : Txt := "laptop|computer|pc".data

/-- Keyword pattern of the display category group. -/
def pCatTv : Txt := "tv|television|monitor".data

/-- Keyword pattern of the audio category group. -/
def pCatAudio : Txt := "headphone|earphone|speaker|audio".data

/-- Keyword pattern of the watch category group. -/
def pCatWatch : Txt := "watch|smartwatch".data

/-- Keyword pattern of the apparel category group. -/
def pCatCloth : Txt := "shirt|jeans|dress|clothing|fashion".data

/-- Keyword pattern of the footwear category group. -/
def pCatShoes : Txt := "shoes|sneaker|footwear".data

/-- Keyword pattern of the book category group. -/
def pCatBook : Txt := "book|novel|guide".data

/-- Keyword pattern of the furniture category group. -/
def pCatHome : Txt := "furniture|home|decor".data

/-- Category name constant. -/
def cElectronics : Txt := "Electronics".data

/-- Category name constant. -/
def cMobileDevices : Txt := "Mobile Devices".data

/-- Category name constant. -/
def cTechnology : Txt := "Technology".data

/-- Category name constant. -/
def cHomeEntertainment : Txt := "Home Entertainment".data

/-- Category name constant. -/
def cAccessories : Txt := "Accessories".data

/-- Category name constant. -/
def cFashion : Txt := "Fashion".data

/-- Category name constant. -/
def cClothing : Txt := "Clothing".data

/-- Category name constant. -/
def cSports : Txt := "Sports".data

/-- Category name constant. -/
def cBooks : Txt := "Books".data

/-- Category name constant. -/
def cEducation : Txt := "Education".data

/-- Category name constant. -/
def cHomeGarden : Txt := "Home & Garden".data

/-- Category name constant. -/
def cLifestyle : Txt := "Lifestyle".data

/-- Category name constant. -/
def cGeneral : Txt := "General".data

/-- Category name constant. -/
def cRetail : Txt := "Retail".data

/-- Subcategory name constant. -/
def sSmartphones : Txt := "Smartphones".data

/-- Subcategory name constant. -/
def sCommunication : Txt := "Communication".data

/-- Subcategory name constant. -/
def sComputers : Txt := "Computers".data

/-- Subcategory name constant. -/
def sComputing : Txt := "Computing".data

/-- Subcategory name constant. -/
def sDisplay : Txt := "Display".data

/-- Subcategory name constant. -/
def sAudioVisual : Txt := "Audio Visual".data

/-- Subcategory name constant. -/
def sAudio : Txt := "Audio".data

/-- Subcategory name constant. -/
def sAudioAccessories : Txt := "Audio Accessories".data

/-- Subcategory name constant. -/
def sWearables : Txt := "Wearables".data

/-- Subcategory name constant. -/
def sAccessories : Txt := "Accessories".data

/-- Subcategory name constant. -/
def sApparel : Txt := "Apparel".data

/-- Subcategory name constant. -/
def sCasualWear : Txt := "Casual Wear".data

/-- Subcategory name constant. -/
def sFootwear : Txt := "Footwear".data

/-- Subcategory name constant. -/
def sAthleticWear : Txt := "Athletic Wear".data

/-- Subcategory name constant. -/
def sLiterature : Txt := "Literature".data

/-- Subcategory name constant. -/
def sLearningMaterials : Txt := "Learning Materials".data

/-- Subcategory name constant. -/
def sFurniture : Txt := "Furniture".data

/-- Subcategory name constant. -/
def sHomeImprovement : Txt := "Home Improvement".data

/-- Subcategory name constant. -/
def sConsumerGoods : Txt := "Consumer Goods".data

/-- Subcategory name constant. -/
def sMiscellaneous : Txt := "Miscellaneous".data

/-- Embedding of `generateDynamicCategories`: first matching keyword group
wins and yields its two ranked entries; no match yields the two-entry
General/Retail default. -/
def generateDynamicCategories (query : Txt) : List ProductCategory :=
  if regexTestI pCatPhone query then
    [⟨cElectronics, 0.95, some sSmartphones⟩, ⟨cMobileDevices, 0.88, some sCommunication⟩]
  else if regexTestI pCatLaptop query then
    [⟨cElectronics, 0.92, some sComputers⟩, ⟨cTechnology, 0.85, some sComputing⟩]
  else if regexTestI pCatTv query then
    [⟨cElectronics, 0.90, some sDisplay⟩, ⟨cHomeEntertainment, 0.82, some sAudioVisual⟩]
  else if regexTestI pCatAudio query then
    [⟨cElectronics, 0.88, some sAudio⟩, ⟨cAccessories, 0.75, some sAudioAccessories⟩]
  else if regexTestI pCatWatch query then
    [⟨cElectronics, 0.85, some sWearables⟩, ⟨cFashion, 0.70, some sAccessories⟩]
  else if regexTestI pCatCloth query then
    [⟨cFashion, 0.90, some sApparel⟩, ⟨cClothing, 0.85, some sCasualWear⟩]
  else if regexTestI pCatShoes query then
    [⟨cFashion, 0.88, some sFootwear⟩, ⟨cSports, 0.72, some sAthleticWear⟩]
  else if regexTestI pCatBook query then
    [⟨cBooks, 0.92, some sLiterature⟩, ⟨cEducation, 0.78, some sLearningMaterials⟩]
  else if regexTestI pCatHome query then
    [⟨cHomeGarden, 0.87, some sFurniture⟩, ⟨cLifestyle, 0.75, some sHomeImprovement⟩]
  else
    [⟨cGeneral, 0.80, some sConsumerGoods⟩, ⟨cRetail, 0.70, some sMiscellaneous⟩]

/-- Keyword pattern for the electronics flag of the market analysis. -/
def pMAElectronics : Txt := "phone|laptop|tablet|tv|camera|headphone|speaker|watch|gaming|console|monitor".data

/-- Keyword pattern for the Apple-brand flag of the market analysis. -/
def pMAApple : Txt := "iphone|ipad|macbook|apple|airpods".data

/-- Keyword pattern for the clothing flag of the market analysis. -/
def pMAClothing : Txt := "shirt|jeans|dress|shoes|jacket|clothing|fashion".data

/-- Keyword pattern for the home flag of the market analysis. -/
def pMAHome : Txt := "furniture|kitchen|home|decor|appliance".data

/-- Keyword pattern for the book flag of the market analysis. -/
def pMABook : Txt := "book|novel|textbook|guide".data

/-- Keyword pattern for the premium flag of the market analysis. -/
def pMAExpensive : Txt := "pro|max|ultra|premium|flagship".data

/-- Price bracket for Apple premium products. -/
def prAppleExp : Txt := "₹1,00,000 - ₹2,00,000".data

/-- Price bracket for premium electronics. -/
def prElecExp : Txt := "₹50,000 - ₹1,50,000".data

/-- Price bracket for general electronics. -/
def prElec : Txt := "₹15,000 - ₹80,000".data

/-- Price bracket for clothing. -/
def prClothing : Txt := "₹500 - ₹5,000".data

/-- Price bracket for home products. -/
def prHome : Txt := "₹2,000 - ₹50,000".data

/-- Price bracket for books. -/
def prBook : Txt := "₹200 - ₹2,000".data

/-- Price bracket for the generic category. -/
def prDefault : Txt := "₹1,000 - ₹25,000".data

/-- Timing narrative constant. -/
def btElecFest : Txt := "Buy now during festive season".data

/-- Timing narrative constant. -/
def ppElecFest : Txt := "Prices at yearly low, good time to purchase".data

/-- Timing narrative constant. -/
def btElecWait : Txt := "Wait 1-2 months for better deals".data

/-- Timing narrative constant. -/
def ppElecDrop : Txt := "Prices may drop 5-10% in coming months".data

/-- Timing narrative constant. -/
def btElecFestWait : Txt := "Wait 3-4 weeks for festive sales".data

/-- Timing narrative constant. -/
def ppElecMajor : Txt := "Major discounts expected during upcoming festivals".data

/-- Timing narrative constant. -/
def btElecModerate : Txt := "Current prices are moderate, can buy now".data

/-- Timing narrative constant. -/
def ppElecStable : Txt := "Prices expected to remain stable for next 2-3 months".data

/-- Timing narrative constant. -/
def btClothSale : Txt := "Buy now during seasonal sale".data

/-- Timing narrative constant. -/
def ppClothClearance : Txt := "End of season clearance offers available".data

/-- Timing narrative constant. -/
def btClothYearEnd : Txt := "Wait 4-6 weeks for year-end sales".data

/-- Timing narrative constant. -/
def ppClothWinter : Txt := "Better discounts expected during winter sales".data

/-- Timing narrative constant. -/
def btClothNext : Txt := "Wait 2-3 weeks for next sale period".data

/-- Timing narrative constant. -/
def ppClothSeasonal : Txt := "Seasonal sales coming up with 20-40% discounts".data

/-- Timing narrative constant. -/
def btHomeFest : Txt := "Buy now during festive home decor season".data

/-- Timing narrative constant. -/
def ppHomeGood : Txt := "Good deals available for home improvement".data

/-- Timing narrative constant. -/
def btHomeWait : Txt := "Wait 3-5 weeks for better offers".data

/-- Timing narrative constant. -/
def ppHomeSoon : Txt := "Home appliance sales expected soon".data

/-- Timing narrative constant. -/
def btBookNow : Txt := "Buy now, book prices are generally stable".data

/-- Timing narrative constant. -/
def ppBookStable : Txt := "Book prices rarely fluctuate significantly".data

/-- Timing narrative constant. -/
def btGenMid : Txt := "Wait 2-3 weeks for mid-month offers".data

/-- Timing narrative constant. -/
def ppGenMid : Txt := "Better deals typically available mid-month".data

/-- Timing narrative constant. -/
def btGenGood : Txt := "Good time to buy, prices are competitive".data

/-- Timing narrative constant. -/
def ppGenGood : Txt := "Current pricing is reasonable for this category".data

/-- Timing narrative constant. -/
def btGenEnd : Txt := "Wait 1-2 weeks for month-end clearance".data

/-- Timing narrative constant. -/
def ppGenEnd : Txt := "Month-end sales may offer additional discounts".data

/-- Market insight constant. -/
def insElecLaunch : Txt := "New model launches can trigger price drops on older versions".data

/-- Market insight constant. -/
def insElecFestive : Txt := "Festive season brings the best electronics deals".data

/-- Market insight constant. -/
def insElecRefurb : Txt := "Consider refurbished options for significant savings".data

/-- Market insight constant. -/
def insClothEnd : Txt := "End-of-season sales offer maximum discounts".data

/-- Market insight constant. -/
def insClothOnline : Txt := "Online exclusive deals often beat retail prices".data

/-- Market insight constant. -/
def insHomeBulk : Txt := "Bulk purchases during sales can reduce per-unit cost".data

/-- Market insight constant. -/
def insHomeWarranty : Txt := "Check for installation and warranty offers".data

/-- Text shared by the generic market insight and the universal search tip. -/
def txtComparePlatforms : Txt := "Compare prices across multiple platforms".data

/-- Market insight constant. -/
def insGenCashback : Txt := "Look for cashback and reward point offers".data

/-- Embedding of `generateDynamicMarketAnalysis`; `month` (0-11) and
`day` (1-31) stand for `new Date().getMonth()` / `.getDate()`, and
`randTrend` for the `Math.random()` draw of the trend fallback. -/
def generateDynamicMarketAnalysis (query : Txt) (month day randTrend : Nat) : MarketAnalysis :=
  let isElectronics := regexTestI pMAElectronics query
  let isApple := regexTestI pMAApple query
  let isClothing := regexTestI pMAClothing query
  let isHome := regexTestI pMAHome query
  let isBook := regexTestI pMABook query
  let isExpensive := regexTestI pMAExpensive query
  let priceRange :=
    if isApple && isExpensive then prAppleExp
    else if isElectronics && isExpensive then prElecExp
    else if isElectronics then prElec
    else if isClothing then prClothing
    else if isHome then prHome
    else if isBook then prBook
    else prDefault
  let marketTrend :=
    if isElectronics then (if month ≥ 8 then Trend.decreasing else Trend.stable)
    else if isClothing then (if month = 1 || month = 6 then Trend.decreasing else Trend.stable)
    else [Trend.increasing, Trend.decreasing, Trend.stable].getD (randTrend % 3) Trend.stable
  let timing :=
    if isElectronics then
      if month ≥ 9 && month ≤ 11 then (btElecFest, ppElecFest)
      else if month ≤ 2 then (btElecWait, ppElecDrop)
      else if month ≥ 6 && month ≤ 8 then (btElecFestWait, ppElecMajor)
      else (btElecModerate, ppElecStable)
    else if isClothing then
      if month = 0 || month = 5 || month = 6 then (btClothSale, ppClothClearance)
      else if month ≥ 9 && month ≤ 11 then (btClothYearEnd, ppClothWinter)
      else (btClothNext, ppClothSeasonal)
    else if isHome then
      if month ≥ 9 && month ≤ 11 then (btHomeFest, ppHomeGood)
      else (btHomeWait, ppHomeSoon)
    else if isBook then (btBookNow, ppBookStable)
    else
      if day ≤ 10 then (btGenMid, ppGenMid)
      else if day ≤ 20 then (btGenGood, ppGenGood)
      else (btGenEnd, ppGenEnd)
  let insights :=
    if isElectronics then
      insElecLaunch :: (if month ≥ 8 then [insElecFestive] else []) ++ [insElecRefurb]
    else if isClothing then [insClothEnd, insClothOnline]
    else if isHome then [insHomeBulk, insHomeWarranty]
    else [txtComparePlatforms, insGenCashback]
  { priceRange := priceRange
    marketTrend := marketTrend
    bestTimeToBuy := timing.1
    pricePrediction := timing.2
    marketInsights := insights }

/-- Keyword pattern for the electronics search-tip group. -/
def pTipsElec : Txt := "phone|laptop|electronics".data

/-- Keyword pattern for the fashion search-tip group. -/
def pTipsCloth : Txt := "clothing|fashion".data

/-- Keyword pattern for the book search-tip group. -/
def pTipsBook : Txt := "book".data

/-- Search tip constant. -/
def tipElecStudent : Txt := "Check for student discounts and educational offers".data

/-- Search tip constant. -/
def tipElecExchange : Txt := "Look for exchange offers with old devices".data

/-- Search tip constant. -/
def tipElecWarranty : Txt := "Consider extended warranty options".data

/-- Search tip constant. -/
def tipElecEmi : Txt := "Check EMI options for expensive purchases".data

/-- Search tip constant. -/
def tipClothSize : Txt := "Check size charts carefully before ordering".data

/-- Search tip constant. -/
def tipClothClearance : Txt := "Look for seasonal clearance sales".data

/-- Search tip constant. -/
def tipClothFabric : Txt := "Read fabric and care instructions".data

/-- Search tip constant. -/
def tipClothReturn : Txt := "Check return and exchange policies".data

/-- Search tip constant. -/
def tipBookDigital : Txt := "Consider digital versions for instant access".data

/-- Search tip constant. -/
def tipBookUsed : Txt := "Check for used book options".data

/-- Search tip constant. -/
def tipBookBundle : Txt := "Look for bundle deals with related titles".data

/-- Search tip constant. -/
def tipGenReviews : Txt := "Read customer reviews and ratings".data

/-- Search tip constant. -/
def tipGenCashback : Txt := "Check for cashback offers and reward points".data

/-- Search tip constant. -/
def tipGenBulk : Txt := "Look for bulk purchase discounts".data

/-- Embedding of `generateDynamicSearchTips`: one universal tip plus the
category-specific tips of the first matching keyword group. -/
def generateDynamicSearchTips (query : Txt) : List Txt :=
  txtComparePlatforms ::
    (if regexTestI pTipsElec query then
      [tipElecStudent, tipElecExchange, tipElecWarranty, tipElecEmi]
    else if regexTestI pTipsCloth query then
      [tipClothSize, tipClothClearance, tipClothFabric, tipClothReturn]
    else if regexTestI pTipsBook query then
      [tipBookDigital, tipBookUsed, tipBookBundle]
    else
      [tipGenReviews, tipGenCashback, tipGenBulk])

/-- Suffix appended to the query to synthesise `enhancedQuery`. -/
def sBestDeals : Txt := " best deals 2024".data

/-- Suffix of the first synthetic recommendation name. -/
def sProMax : Txt := " Pro Max".data

/-- Reason of the first synthetic recommendation. -/
def sPremiumVariant : Txt := "Premium variant with better features".data

/-- Fallback estimated price of the first synthetic recommendation. -/
def fbUpper : Txt := "₹1,20,000".data

/-- Suffix of the second synthetic recommendation name. -/
def sLite : Txt := " Lite".data

/-- Reason of the second synthetic recommendation. -/
def sBudgetAlt : Txt := "Budget-friendly alternative".data

/-- Fallback estimated price of the second synthetic recommendation. -/
def fbLower : Txt := "₹60,000".data

/-- Model of `categories[0]?.category || 'Electronics'`. -/
def headCategoryOr (cats : List ProductCategory) (fb : Txt) : Txt :=
  match cats.head? with
  | some c => if c.category.isEmpty then fb else c.category
  | none => fb

/-- Embedding of `generateMockSmartSearchResult`: composes the enhanced
query, dynamic categories, dynamic market analysis, two synthetic
recommendations derived from the price-range bounds, and dynamic tips. -/
def generateMockSmartSearchResult (query : Txt) (month day randTrend : Nat) : SmartSearchResult :=
  let marketAnalysis := generateDynamicMarketAnalysis query month day randTrend
  let categories := generateDynamicCategories query
  { enhancedQuery := query ++ sBestDeals
    categories := categories
    marketAnalysis := marketAnalysis
    recommendations := [
      { productName := query ++ sProMax
        reason := sPremiumVariant
        category := headCategoryOr categories cElectronics
        estimatedPrice := getSplitOr (splitOnSep3 ' ' '-' ' ' marketAnalysis.priceRange) 1 fbUpper
        confidence := 0.85 },
      { productName := query ++ sLite
        reason := sBudgetAlt
        category := headCategoryOr categories cElectronics
        estimatedPrice := getSplitOr (splitOnSep3 ' ' '-' ' ' marketAnalysis.priceRange) 0 fbLower
        confidence := 0.78 }]
    searchTips := generateDynamicSearchTips query }

/-- Query substituted when no query is available. -/
def sGeneralProduct : Txt := "general product".data

/-- Embedding of `generateMockCategories`. -/
def generateMockCategories : List ProductCategory :=
  generateDynamicCategories sGeneralProduct

/-- Embedding of `generateMockMarketAnalysis`. -/
def generateMockMarketAnalysis (month day randTrend : Nat) : MarketAnalysis :=
  generateDynamicMarketAnalysis sGeneralProduct month day randTrend

/-- Name of the first fixed generic recommendation. -/
def recName1 : Txt := "iPhone 15 Pro Max".data

/-- Reason of the first fixed generic recommendation. -/
def recReason1 : Txt := "Premium flagship with advanced features".data

/-- Price of the first fixed generic recommendation. -/
def recPrice1 : Txt := "₹1,50,000".data

/-- Name of the second fixed generic recommendation. -/
def recName2 : Txt := "Samsung Galaxy S24 Ultra".data

/-- Reason of the second fixed generic recommendation. -/
def recReason2 : Txt := "Best Android alternative with S Pen".data

/-- Price of the second fixed generic recommendation. -/
def recPrice2 : Txt := "₹1,30,000".data

/-- Name of the third fixed generic recommendation. -/
def recName3 : Txt := "Google Pixel 8 Pro".data

/-- Reason of the third fixed generic recommendation. -/
def recReason3 : Txt := "Excellent camera and AI features".data

/-- Price of the third fixed generic recommendation. -/
def recPrice3 : Txt := "₹1,10,000".data

/-- Embedding of `generateMockRecommendations`: the fixed three-entry
generic list. -/
def generateMockRecommendations : List ProductRecommendation :=
  [⟨recName1, recReason1, cElectronics, recPrice1, 0.85⟩,
   ⟨recName2, recReason2, cElectronics, recPrice2, 0.78⟩,
   ⟨recName3, recReason3, cElectronics, recPrice3, 0.72⟩]

/-- Quoted capture `\s*"([^"]+)"` at the head of the text. -/
def quotedAfter (r : Txt) : Option Txt :=
  let r := r.dropWhile isWsChar
  match r with
  | c :: r2 =>
    if c = dqu then
      let q := r2.takeWhile (fun ch => ch != dqu)
      if !q.isEmpty && !((r2.dropWhile (fun ch => ch != dqu)).isEmpty) then some q
      else none
    else none
  | [] => none

/-- Literal part of the `extractQueryFromPrompt` regex. -/
def mQueryMarker : Txt := "Analyze this search query:".data

/-- Match of `Analyze this search query:\s*"([^"]+)"` at the current position. -/
def tryQueryAt (s : Txt) : Option Txt :=
  if startsWithT mQueryMarker s then quotedAfter (s.drop mQueryMarker.length)
  else none

/-- Leftmost-match scan for the `extractQueryFromPrompt` regex. -/
def scanQuery : Txt → Option Txt
  | [] => none
  | ch :: rest => (tryQueryAt (ch :: rest)).orElse (fun _ => scanQuery rest)

/-- Embedding of `extractQueryFromPrompt`. -/
def extractQueryFromPrompt (prompt : Txt) : Txt :=
  (scanQuery prompt).getD sGeneralProduct

/-- Marker alternative of the `extractUserQuestion` regex. -/
def mUserAsked : Txt := "user asked:".data

/-- Marker alternative of the `extractUserQuestion` regex. -/
def mUserSays : Txt := "user says:".data

/-- Marker alternative of the `extractUserQuestion` regex. -/
def mUserAsking : Txt := "user is asking:".data

/-- Marker alternative of the `extractUserQuestion` regex. -/
def mUserQuestion : Txt := "user question:".data

/-- The four marker alternatives, in the order of the source pattern. -/
def mUserMarkers : List Txt := [mUserAsked, mUserSays, mUserAsking, mUserQuestion]

/-- Case-insensitive match of `(?:user asked|user says|user is asking|user question):\s*"([^"]+)"` at the current position. -/
def tryUserQAt (s : Txt) : Option Txt :=
  match mUserMarkers.find? (fun m => startsWithT m (lowerTxt s)) with
  | some m => quotedAfter (s.drop m.length)
  | none => none

/-- Leftmost-match scan for the user-question regex. -/
def scanUserQ : Txt → Option Txt
  | [] => none
  | ch :: rest => (tryUserQAt (ch :: rest)).orElse (fun _ => scanUserQ rest)

/-- Leftmost-match scan for the fallback pattern `"([^"]+)"`. -/
def scanFirstQuoted : Txt → Option Txt
  | [] => none
  | ch :: rest =>
    (if ch = dqu then
      let q := rest.takeWhile (fun c => c != dqu)
      if !q.isEmpty && !((rest.dropWhile (fun c => c != dqu)).isEmpty) then some q
      else none
    else none).orElse (fun _ => scanFirstQuoted rest)

/-- Embedding of `extractUserQuestion`: explicit user-question marker,
else first quoted substring, else the whole prompt. -/
def extractUserQuestion (prompt : Txt) : Txt :=
  match scanUserQ prompt with
  | some q => q
  | none =>
    match scanFirstQuoted prompt with
    | some q => q
    | none => prompt

/-- Model of a chain of `lowerQuestion.includes('w1') || … || includes('wn')`
tests, with the words given as a bar-separated pattern. -/
def anyIncl (lq : Txt) (pats : Txt) : Bool :=
  (splitOnCh '|' pats).any (fun p => containsSub lq p)

/-- Model of `pool[Math.floor(Math.random() * pool.length)]`. -/
def pickReply (pool : List Txt) (randReply : Nat) : Txt :=
  pool.getD (randReply % pool.length) []

/-- Keyword set of the greeting intent bucket. -/
def kwGreeting : Txt := "hello|hi|hey|start|begin".data

/-- Keyword set of the phone intent bucket. -/
def kwPhone : Txt := "phone|smartphone|mobile".data

/-- Keyword set of the laptop intent bucket. -/
def kwLaptop : Txt := "laptop|computer|macbook".data

/-- Keyword set of the price intent bucket. -/
def kwPrice : Txt := "price|cost|expensive|cheap|budget|deal".data

/-- Keyword set of the audio intent bucket. -/
def kwAudio : Txt := "audio|headphone|earphone|speaker|sound".data

/-- Keyword set of the trend intent bucket. -/
def kwTrend : Txt := "trend|popular|hot|new|latest".data

/-- Keyword set of the comparison intent bucket. -/
def kwCompare : Txt := "compare|vs|versus|better|which is".data

/-- Keyword set of the warranty intent bucket. -/
def kwWarranty : Txt := "warranty|support|service|repair|guarantee".data

/-- Keyword set of the advice intent bucket. -/
def kwAdvice : Txt := "advice|tip|how to|guide|help".data

/-- Keyword set of the thanks intent bucket. -/
def kwThanks : Txt := "thank|thanks|appreciate".data

/-- Canned greeting reply 1. -/
def rGreet1 : Txt := "Hi there! 👋 I\x27m excited to help you find the perfect products. What are you shopping for today?".data

/-- Canned greeting reply 2. -/
def rGreet2 : Txt := "Hello! Welcome to your personal shopping assistant. I can help you discover great deals and make smart purchasing decisions. What interests you?".data

/-- Canned greeting reply 3. -/
def rGreet3 : Txt := "Hey! I\x27m here to make your shopping experience amazing. Whether you\x27re looking for the latest gadgets, fashion, or home essentials, I\x27ve got you covered. What\x27s on your shopping list?".data

/-- Canned greeting reply 4. -/
def rGreet4 : Txt := "Hi! Thanks for chatting with me. I love helping people find exactly what they need at the best prices. What can I help you discover today?".data

/-- Canned phone reply 1. -/
def rPhone1 : Txt := "Smartphones are constantly evolving! Right now, I\x27d recommend looking at the latest iPhone 15 series or Samsung Galaxy S24 lineup. Both offer excellent cameras, performance, and battery life. The iPhone 15 Pro starts around ₹1,30,000, while Samsung\x27s flagship is about ₹1,00,000. Which features matter most to you - camera, battery, or gaming performance?".data

/-- Canned phone reply 2. -/
def rPhone2 : Txt := "When it comes to phones, it really depends on your budget and needs. For premium users, the iPhone 15 Pro Max offers the best camera and ecosystem integration. If you\x27re looking for great value, Samsung Galaxy S24 Ultra gives you similar features at a lower price point. Both are excellent choices with 5G support and long-term software updates.".data

/-- Canned phone reply 3. -/
def rPhone3 : Txt := "Phone shopping can be overwhelming with so many options! Let me help you narrow it down. Are you upgrading from an older phone, or is this your first smartphone? Also, what\x27s your budget range? This will help me give you more targeted recommendations.".data

/-- Canned laptop reply 1. -/
def rLaptop1 : Txt := "Laptops are such a personal choice! For students and general use, I\x27d recommend the MacBook Air M2 - it\x27s lightweight, has amazing battery life (up to 18 hours), and handles everything from browsing to light video editing. It starts at around ₹1,10,000. If you need more power for gaming or professional work, consider a Windows laptop with dedicated graphics.".data

/-- Canned laptop reply 2. -/
def rLaptop2 : Txt := "The laptop market has something for everyone. If you\x27re into the Apple ecosystem and value design, the MacBook Pro M3 is incredible for creative work. For gaming, look at ASUS ROG or MSI laptops. And for everyday use, Lenovo ThinkPad or Dell XPS series offer great reliability. What\x27s your primary use case - work, gaming, or general browsing?".data

/-- Canned laptop reply 3. -/
def rLaptop3 : Txt := "Great question about laptops! Current trends show that Apple Silicon Macs are dominating for their efficiency, while gaming laptops from ASUS and MSI offer incredible performance. For business users, ThinkPad reliability is unmatched. Do you have a preference for Windows, macOS, or are you open to both?".data

/-- Canned price reply 1. -/
def rPrice1 : Txt := "Smart shopping is all about timing! Prices typically drop during major sales like Amazon Great Indian Festival, Flipkart Big Billion Days, and festive seasons (October-December). Right now, you can find up to 40% off on electronics. Also, check for bank offers, exchange deals, and student discounts. What product are you interested in?".data

/-- Canned price reply 2. -/
def rPrice2 : Txt := "The best deals happen during shopping festivals! We\x27re currently in a good period with various offers running. Electronics see the biggest discounts (up to 50% off), followed by fashion and home goods. Pro tip: Set price alerts on apps and wait for sales rather than buying at full price. What\x27s your budget for what you\x27re looking for?".data

/-- Canned price reply 3. -/
def rPrice3 : Txt := "Price comparison is crucial in India! Amazon, Flipkart, Croma, and Vijay Sales often have competing offers. Don\x27t forget about cashback apps like CashKaro and bank credit card rewards. For big purchases, EMI options can make expensive items more affordable. What category interests you most?".data

/-- Canned audio reply 1. -/
def rAudio1 : Txt := "Audio quality can make or break your experience! For wireless earbuds, the Sony WF-1000XM5 offers incredible noise cancellation and sound quality, though they\x27re pricey at ₹25,000+. If you\x27re on a budget, OnePlus Buds Pro 2 gives great value at ₹10,000. For over-ear headphones, Bose QuietComfort Ultra delivers premium comfort and ANC.".data

/-- Canned audio reply 2. -/
def rAudio2 : Txt := "When it comes to audio gear, it depends on your usage. For commuting and calls, I\x27d recommend true wireless earbuds with good ANC. For music production or critical listening, over-ear headphones with high-end drivers are better. Sony and Bose dominate the premium segment, while brands like boAt and Noise offer affordable alternatives with decent quality.".data

/-- Canned audio reply 3. -/
def rAudio3 : Txt := "Audio shopping is exciting! Current favorites include Sony WH-1000XM5 for noise cancellation, Bose QuietComfort for comfort, and Apple AirPods Pro for seamless iPhone integration. Don\x27t forget to check reviews for fit and battery life. What type of audio gear are you looking for - earbuds, headphones, or speakers?".data

/-- Canned trend reply 1. -/
def rTrend1 : Txt := "2024 is all about AI integration and sustainability! Smartphones with advanced cameras, foldable displays, and AI features are trending. In laptops, Apple Silicon Macs are dominating, while gaming laptops with RTX 40-series GPUs are hot. Sustainable products and energy-efficient appliances are also gaining popularity.".data

/-- Canned trend reply 2. -/
def rTrend2 : Txt := "Current shopping trends show strong demand for: 1) AI-powered devices (smartphones, smart home gadgets), 2) Sustainable and eco-friendly products, 3) Foldable phones and flexible displays, 4) High-refresh-rate gaming monitors, 5) Wireless charging everywhere. What category interests you most?".data

/-- Canned trend reply 3. -/
def rTrend3 : Txt := "The market is evolving rapidly! Right now, we\x27re seeing a surge in demand for electric vehicles, smart home automation, and AI assistants. In consumer electronics, 8K TVs and high-end gaming PCs are popular. Fashion trends lean towards sustainable materials and versatile athleisure wear. What\x27s catching your eye?".data

/-- Canned comparison reply 1. -/
def rCompare1 : Txt := "Great question for comparisons! To give you the best advice, I need to know what you\x27re comparing. For example: iPhone vs Samsung (iPhone wins on ecosystem, Samsung on value), MacBook vs Windows laptops (Mac for creative work, Windows for gaming), or specific models? What products are you considering?".data

/-- Canned comparison reply 2. -/
def rCompare2 : Txt := "Comparisons help make informed decisions! Generally, I compare based on: performance, price, build quality, software support, and user reviews. Apple products excel in ecosystem integration and long-term support, while Android/Windows offer more customization. Premium brands like Sony and Bose focus on quality, while budget brands prioritize value. What are you comparing?".data

/-- Canned comparison reply 3. -/
def rCompare3 : Txt := "Smart comparisons save money and buyer\x27s remorse! Key factors include: 1) Performance vs price ratio, 2) Build quality and durability, 3) Software updates and support, 4) User reviews and ratings, 5) Warranty and after-sales service. Indian market favorites include Samsung for value, Apple for premium, and OnePlus for performance. What would you like me to compare?".data

/-- Canned warranty reply 1. -/
def rWarranty1 : Txt := "Warranty is crucial for peace of mind! Most electronics come with 1-2 year manufacturer warranty covering manufacturing defects. Extended warranties are available for ₹2,000-5,000 extra. Apple offers excellent support with authorized service centers everywhere. Always buy from authorized dealers to ensure valid warranty coverage.".data

/-- Canned warranty reply 2. -/
def rWarranty2 : Txt := "Good warranty coverage is essential! Premium brands like Apple, Samsung, and Sony offer comprehensive support with dedicated service centers. Budget brands typically provide 1-year warranty with good coverage. Pro tip: Register your product online immediately after purchase and keep all bills safe. What product are you considering?".data

/-- Canned warranty reply 3. -/
def rWarranty3 : Txt := "Service and support vary by brand. Apple leads with seamless ecosystem support, Samsung has widespread service centers, while local brands like Lava and Micromax offer good regional support. For high-value purchases, consider extended warranty plans. Always check the warranty card and terms carefully before buying.".data

/-- Canned advice reply 1. -/
def rAdvice1 : Txt := "Smart shopping tips: 1) Compare prices across platforms, 2) Read recent reviews (last 3 months), 3) Check return policies, 4) Look for cashback offers, 5) Consider future needs, not just current ones. For big purchases, wait for sales or use credit card rewards. What specific advice do you need?".data

/-- Canned advice reply 2. -/
def rAdvice2 : Txt := "Here\x27s my shopping wisdom: Always research thoroughly, never buy impulsively on deals, check user reviews on multiple sites, and consider the total cost of ownership (including accessories and maintenance). For electronics, focus on reputable brands with good service networks. What\x27s your shopping challenge?".data

/-- Canned advice reply 3. -/
def rAdvice3 : Txt := "Pro shopping advice: 1) Set a realistic budget first, 2) Make a wishlist and compare options, 3) Read specifications carefully, 4) Check compatibility with existing devices, 5) Buy from authorized sellers for warranty validity. For online shopping, use secure payment methods and track your orders. How can I assist you today?".data

/-- Canned thanks reply 1. -/
def rThanks1 : Txt := "You\x27re very welcome! I\x27m always here to help you make great shopping decisions. Feel free to ask if you need more recommendations or have any other questions. Happy shopping! 🛒".data

/-- Canned thanks reply 2. -/
def rThanks2 : Txt := "My pleasure! Shopping can be overwhelming, but I\x27m glad I could help. Remember, I\x27m here whenever you need advice on products, deals, or anything shopping-related. Have a great day!".data

/-- Canned thanks reply 3. -/
def rThanks3 : Txt := "Glad I could help! Don\x27t hesitate to reach out anytime you need shopping assistance. Whether it\x27s product research, price comparison, or finding the best deals, I\x27m your go-to shopping companion. 😊".data

/-- Canned default reply 1. -/
def rDefault1 : Txt := "That\x27s an interesting question! I\x27d love to help you find the perfect solution. Could you tell me more about what you\x27re looking for? For example, what\x27s your budget, or what features are most important to you?".data

/-- Canned default reply 2. -/
def rDefault2 : Txt := "Great question! Shopping decisions are important, and I want to make sure you get exactly what you need. To give you the best advice, could you share a bit more about your requirements or preferences?".data

/-- Canned default reply 3. -/
def rDefault3 : Txt := "I\x27m here to help you make smart shopping decisions! Whether you\x27re looking for the latest tech, fashion essentials, or home improvements, I can provide recommendations and insights. What specific product or category interests you?".data

/-- Canned default reply 4. -/
def rDefault4 : Txt := "Thanks for asking! I can help you navigate the vast world of online shopping in India. From finding the best deals to understanding product specifications, I\x27m your shopping companion. What would you like to explore today?".data

/-- Embedding of `generateMockResponse`: extracts the user question,
classifies it against the ordered intent buckets, and picks from the
matching canned pool with the `Math.random` draw `randReply`. -/
def generateMockResponse (prompt : Txt) (randReply : Nat) : Txt :=
  let userQuestion := extractUserQuestion prompt
  let lq := lowerTxt userQuestion
  if anyIncl lq kwGreeting then pickReply [rGreet1, rGreet2, rGreet3, rGreet4] randReply
  else if anyIncl lq kwPhone then pickReply [rPhone1, rPhone2, rPhone3] randReply
  else if anyIncl lq kwLaptop then pickReply [rLaptop1, rLaptop2, rLaptop3] randReply
  else if anyIncl lq kwPrice then pickReply [rPrice1, rPrice2, rPrice3] randReply
  else if anyIncl lq kwAudio then pickReply [rAudio1, rAudio2, rAudio3] randReply
  else if anyIncl lq kwTrend then pickReply [rTrend1, rTrend2, rTrend3] randReply
  else if anyIncl lq kwCompare then pickReply [rCompare1, rCompare2, rCompare3] randReply
  else if anyIncl lq kwWarranty then pickReply [rWarranty1, rWarranty2, rWarranty3] randReply
  else if anyIncl lq kwAdvice then pickReply [rAdvice1, rAdvice2, rAdvice3] randReply
  else if anyIncl lq kwThanks then pickReply [rThanks1, rThanks2, rThanks3] randReply
  else pickReply [rDefault1, rDefault2, rDefault3, rDefault4] randReply

/-- Envelope of a successful HTTP response body: either the validated
nested shape carrying the model text (`candidates[0].content.parts[0].text`,
with `|| ''` folding a missing text to empty), or a body failing the
structure validation. -/
inductive Envelope where
  | ok (text : Txt)
  | malformed
deriving DecidableEq

/-- Outcome of one `fetch` call, supplied by the environment: an HTTP
response with a status, a transport rejection with an error message, or a
rejection with the `AbortError` raised when the shared signal fires while
the call is in flight. -/
inductive FetchOutcome where
  | resp (status : Nat) (body : Envelope)
  | netError (msg : Txt)
  | abortError
deriving DecidableEq

/-- Environment record standing for the platform: `import.meta.env.PROD`,
`navigator.onLine`, the `fetch` primitive (indexed by how many fetches the
current request has issued so far), the shared cancellation signal's state
as observed at the check preceding each fetch slot, `JSON.parse`, the
current date, and the `Math.random` draws. -/
structure SvcEnv where
  prod : Bool
  online : Bool
  fetches : Nat → FetchOutcome
  abortedBefore : Nat → Bool
  jsonParse : Txt → Option JsonVal
  month : Nat
  day : Nat
  randTrend : Nat
  randReply : Nat

/-- Mutable state of the `GeminiAiService` singleton. -/
structure SvcState where
  apiKey : Txt
  useMockData : Bool
deriving DecidableEq

/-- JS error name as inspected by the catch blocks. -/
inductive ErrName where
  | abortName
  | genericName
deriving DecidableEq

/-- JS error value: its `name` and its `message`. -/
structure JsError where
  name : ErrName
  msg : Txt
deriving DecidableEq

/-- Result of `makeRequestWithRetry`: a returned `Response` (ok or not),
the `null` sentinel, or a thrown error. -/
inductive RetryOut where
  | gotResp (status : Nat) (body : Envelope)
  | sentinel
  | raised (e : JsError)
deriving DecidableEq

/-- Value returned by `makeApiRequest`: the raw model text, or (on the
mock short-circuit paths) a structured mock object or conversational mock
string. -/
inductive ApiOut where
  | text (s : Txt)
  | smart (r : SmartSearchResult)
deriving DecidableEq

/-- Embedding of `forceMockMode`: sets the flag only outside production. -/
def forceMockMode (prod : Bool) (st : SvcState) : SvcState :=
  if prod then st else { st with useMockData := true }

/-- Model of `Response.ok`. -/
def statusOk (status : Nat) : Bool := 200 ≤ status && status < 300

/-- Message of the error thrown by the `signal.aborted` pre-check (note:
a plain `Error`, whose `name` is not `AbortError`). -/
def msgAborted : Txt := "Request was aborted".data

/-- Message of the abort rejection raised by an in-flight `fetch`. -/
def msgAbortErr : Txt := "The operation was aborted.".data

/-- Rewritten timeout message of the outer catch. -/
def msgTimeout : Txt := "Request timed out. Please try again.".data

/-- Rewritten network message of the outer catch. -/
def msgNetwork : Txt := "Network error. Please check your internet connection.".data

/-- Message of the offline error thrown before the endpoint loop. -/
def substrNoInternet : Txt := "No internet connection".data

/-- Rewritten offline message of the outer catch. -/
def msgNoInternet : Txt := "No internet connection. Please check your network.".data

/-- Message of the malformed-envelope error. -/
def msgInvalidStructure : Txt := "Invalid response structure from Gemini API".data

/-- Prefix of the aggregated all-endpoints-failed error message. -/
def msgAllFailedPre : Txt := "All Gemini API endpoints failed. Last error: ".data

/-- Substring the outer catch looks for to classify timeouts. -/
def substrTimedOut : Txt := "timed out".data

/-- Substring the outer catch looks for to classify fetch failures. -/
def substrFailedFetch : Txt := "Failed to fetch".data

/-- Substring the rate-limit check looks for in the accumulated error. -/
def substr429 : Txt := "429".data

/-- Piece of the per-endpoint error description. -/
def txtEndpointPre : Txt := "Endpoint ".data

/-- Piece of the per-endpoint error description. -/
def txtColonSp : Txt := ": ".data

/-- Single space (the empty `statusText` separator of the description). -/
def txtSp : Txt := " ".data

/-- Per-endpoint error description for a non-ok HTTP response
(`Endpoint <url>: <status> <statusText>`, with empty status text). -/
def endpointErrTxt (ep : Txt) (status : Nat) : Txt :=
  txtEndpointPre ++ ep ++ txtColonSp ++ natTxt status ++ txtSp

/-- Per-endpoint error description for a thrown error
(`Endpoint <url>: <message>`). -/
def endpointErrMsg (ep msg : Txt) : Txt :=
  txtEndpointPre ++ ep ++ txtColonSp ++ msg

/-- First candidate endpoint URL. -/
def epFlash : Txt := "https://generativelanguage.googleapis.com/v1beta/models/gemini-1.5-flash:generateContent".data

/-- Second candidate endpoint URL. -/
def epPro : Txt := "https://generativelanguage.googleapis.com/v1beta/models/gemini-pro:generateContent".data

/-- Third candidate endpoint URL. -/
def epOldPro : Txt := "https://generativelanguage.googleapis.com/v1beta/models/gemini-1.0-pro:generateContent".data

/-- The fixed ordered endpoint list of `makeApiRequest`. -/
def endpoints : List Txt := [epFlash, epPro, epOldPro]

/-- One pass of the `for (attempt = 0; attempt <= maxRetries; …)` loop of
`makeRequestWithRetry`.  `rem` is the remaining iteration budget (the loop
guard), `attempt` the loop counter, `fi` the next fetch slot, `last` the
`lastResponse` variable.  The aborted pre-check throws a plain error whose
name is not `AbortError`, so the catch treats it as a transport error and
retries once; a 429 response backs off while attempts remain and otherwise
forces mock mode and returns the sentinel; other non-ok responses return
immediately; transport errors retry exactly once; an in-flight abort is
rethrown as an `AbortError`. -/
def attemptLoop (E : SvcEnv) (maxRetries : Nat) :
    Nat → Nat → Nat → SvcState → Option (Nat × Envelope) → RetryOut × Nat × SvcState
  | 0, _, fi, st, last =>
    (match last with
     | some (s, b) => (.gotResp s b, fi, st)
     | none => (.sentinel, fi, st))
  | rem + 1, attempt, fi, st, last =>
    if E.abortedBefore fi then
      if attempt < 1 then attemptLoop E maxRetries rem (attempt + 1) fi st last
      else (.raised ⟨.genericName, msgAborted⟩, fi, st)
    else
      match E.fetches fi with
      | .resp status body =>
        if statusOk status then (.gotResp status body, fi + 1, st)
        else if status = 429 then
          if attempt < maxRetries then
            attemptLoop E maxRetries rem (attempt + 1) (fi + 1) st (some (status, body))
          else (.sentinel, fi + 1, forceMockMode E.prod st)
        else (.gotResp status body, fi + 1, st)
      | .netError msg =>
        if attempt < 1 then attemptLoop E maxRetries rem (attempt + 1) (fi + 1) st last
        else (.raised ⟨.genericName, msg⟩, fi + 1, st)
      | .abortError => (.raised ⟨.abortName, msgAbortErr⟩, fi + 1, st)

/-- Embedding of `makeRequestWithRetry` (the source's default budget is
`maxRetries = 2`, which the single call site uses).  In production it
returns the sentinel before any attempt. -/
def makeRequestWithRetry (E : SvcEnv) (st : SvcState) (maxRetries fi : Nat) :
    RetryOut × Nat × SvcState :=
  if E.prod then (.sentinel, fi, st)
  else attemptLoop E maxRetries (maxRetries + 1) 0 fi st none

/-- Outcome of the endpoint loop of `makeApiRequest`: broke on an ok
response, returned the conversational mock (sentinel path), threw the
timeout rethrow (abort path), or finished with the last response and the
accumulated error description. -/
inductive LoopOut where
  | broke (status : Nat) (body : Envelope)
  | mockReturn
  | threwTimeout
  | done (resp : Option (Nat × Envelope)) (lastError : Txt)

/-- Embedding of the `for (const endpoint of endpoints)` loop of
`makeApiRequest`, threading the `response` and `lastError` variables. -/
def endpointLoop (E : SvcEnv) :
    List Txt → SvcState → Nat → Option (Nat × Envelope) → Txt → LoopOut × Nat × SvcState
  | [], st, fi, respSoFar, lastError => (.done respSoFar lastError, fi, st)
  | ep :: rest, st, fi, respSoFar, lastError =>
    match makeRequestWithRetry E st 2 fi with
    | (.gotResp status body, fi2, st2) =>
      if statusOk status then (.broke status body, fi2, st2)
      else endpointLoop E rest st2 fi2 (some (status, body)) (endpointErrTxt ep status)
    | (.sentinel, fi2, st2) => (.mockReturn, fi2, st2)
    | (.raised e, fi2, st2) =>
      match e.name with
      | .abortName => (.threwTimeout, fi2, st2)
      | .genericName => endpointLoop E rest st2 fi2 respSoFar (endpointErrMsg ep e.msg)

/-- Embedding of the outer catch of `makeApiRequest`: reclassifies abort
and timeout errors, fetch failures and offline errors, and rethrows
everything else unchanged. -/
def outerCatch (e : JsError) : JsError :=
  if e.name = ErrName.abortName || containsSub e.msg substrTimedOut then ⟨.genericName, msgTimeout⟩
  else if containsSub e.msg substrFailedFetch then ⟨.genericName, msgNetwork⟩
  else if containsSub e.msg substrNoInternet then ⟨.genericName, msgNoInternet⟩
  else e

/-- Structured-request marker substring. -/
def mkEnhanced : Txt := "\"enhancedQuery\"".data

/-- Structured-request marker substring. -/
def mkCategories : Txt := "\"categories\"".data

/-- Structured-request marker substring. -/
def mkMarket : Txt := "\"marketAnalysis\"".data

/-- Detection of a structured-JSON instruction prompt by the literal
marker substrings. -/
def promptIsStructured (prompt : Txt) : Bool :=
  containsSub prompt mkEnhanced || containsSub prompt mkCategories || containsSub prompt mkMarket

/-- Mock short-circuit of `makeApiRequest`: a structured mock object for
marker-bearing prompts, a conversational mock string otherwise. -/
def mockShortCircuit (E : SvcEnv) (prompt : Txt) : ApiOut :=
  if promptIsStructured prompt then
    .smart (generateMockSmartSearchResult (extractQueryFromPrompt prompt) E.month E.day E.randTrend)
  else .text (generateMockResponse prompt E.randReply)

/-- Embedding of `makeApiRequest`: mock short-circuits, offline check,
endpoint loop with bounded retries, envelope validation, rate-limit
mock-forcing on the aggregated error, and the outer catch
reclassification.  Returns the result, the number of fetches issued, and
the updated state. -/
def makeApiRequest (E : SvcEnv) (st : SvcState) (prompt : Txt) :
    Except JsError ApiOut × Nat × SvcState :=
  if E.prod then (.ok (mockShortCircuit E prompt), 0, st)
  else if st.useMockData then (.ok (mockShortCircuit E prompt), 0, st)
  else if !E.online then (.error (outerCatch ⟨.genericName, substrNoInternet⟩), 0, st)
  else
    match endpointLoop E endpoints st 0 none [] with
    | (.broke _ body, fi, st2) =>
      match body with
      | .ok text => (.ok (.text text), fi, st2)
      | .malformed => (.error (outerCatch ⟨.genericName, msgInvalidStructure⟩), fi, st2)
    | (.mockReturn, fi, st2) => (.ok (.text (generateMockResponse prompt E.randReply)), fi, st2)
    | (.threwTimeout, fi, st2) => (.error (outerCatch ⟨.genericName, msgTimeout⟩), fi, st2)
    | (.done _ lastError, fi, st2) =>
      let st3 := if containsSub lastError substr429 then forceMockMode E.prod st2 else st2
      (.error (outerCatch ⟨.genericName, msgAllFailedPre ++ lastError⟩), fi, st3)

/-- Prompt of the background connectivity probe. -/
def testPromptTxt : Txt := "Hello, this is a test message.".data

/-- Embedding of `testApiConnection`: false in production and in mock
mode, otherwise the success of one probe request. -/
def testApiConnection (E : SvcEnv) (st : SvcState) : Bool × Nat × SvcState :=
  if E.prod then (false, 0, st)
  else if st.useMockData then (false, 0, st)
  else
    match makeApiRequest E st testPromptTxt with
    | (.ok _, fi, st2) => (true, fi, st2)
    | (.error _, fi, st2) => (false, fi, st2)

/-- Lightweight product descriptor consumed by the façade (only `title`
and `price` are read). -/
structure ProductLite where
  title : Txt
  price : Txt

/-- Separator of the `join(', ')` calls. -/
def txtCommaSp : Txt := ", ".data

/-- Model of `Array.prototype.join(', ')`. -/
def joinCommaSp : List Txt → Txt
  | [] => []
  | [x] => x
  | x :: y :: rest => x ++ txtCommaSp ++ joinCommaSp (y :: rest)

/-- Result of a façade operation: either a value of the declared TS type
(the mock-synthesis paths), or a JSON value recovered from model output
and returned without shape validation. -/
inductive FacOut (α : Type) where
  | shaped (a : α)
  | raw (j : JsonVal)

/-- Leading piece of the `enhanceSearchQuery` prompt template. -/
def enhancePromptPre : Txt := "\n        Analyze this search query: \"".data

/-- Trailing piece of the `enhanceSearchQuery` prompt template. -/
def enhancePromptPost : Txt := "\"\n        \n        You must return ONLY valid JSON with this exact structure, no markdown, no explanations, no additional text:\n        \x7b\n          \"enhancedQuery\": \"enhanced search query\",\n          \"categories\": [\n            \x7b\n              \"category\": \"main category\",\n              \"confidence\": 0.95,\n              \"subcategory\": \"subcategory\"\n            \x7d\n          ],\n          \"marketAnalysis\": \x7b\n            \"priceRange\": \"price range in INR (₹)\",\n            \"marketTrend\": \"increasing/decreasing/stable\",\n            \"bestTimeToBuy\": \"recommendation\",\n            \"pricePrediction\": \"prediction\",\n            \"marketInsights\": [\"insight1\", \"insight2\"]\n          \x7d,\n          \"recommendations\": [\n            \x7b\n              \"productName\": \"product name\",\n              \"reason\": \"why recommend\",\n              \"category\": \"category\",\n              \"estimatedPrice\": \"price in INR (₹)\",\n              \"confidence\": 0.85\n            \x7d\n          ],\n          \"searchTips\": [\"tip1\", \"tip2\", \"tip3\"]\n        \x7d\n        \n        Focus on electronics, gadgets, and consumer products. Be specific and actionable.\n        IMPORTANT: All prices must be in Indian Rupees (₹) format, not USD ($).\n        CRITICAL: Return ONLY the JSON object above, nothing else.\n      ".data

/-- The `enhanceSearchQuery` structured-JSON instruction prompt. -/
def enhancePrompt (query : Txt) : Txt :=
  enhancePromptPre ++ query ++ enhancePromptPost

/-- Body of `enhanceSearchQuery` (the contents of its try block): mock
short-circuits, the orchestrated request, the object pre-check
(`typeof response === 'object' && response.enhancedQuery`), recovery via
`safeJsonParse` with the truthiness test of `if (result)`, and mock
substitution on recovery failure. -/
def enhanceBody (E : SvcEnv) (st : SvcState) (query : Txt) :
    Except JsError (FacOut SmartSearchResult) × Nat × SvcState :=
  if E.prod then
    (.ok (.shaped (generateMockSmartSearchResult query E.month E.day E.randTrend)), 0, st)
  else if st.useMockData then
    (.ok (.shaped (generateMockSmartSearchResult query E.month E.day E.randTrend)), 0, st)
  else
    match makeApiRequest E st (enhancePrompt query) with
    | (.ok (.smart r), fi, st2) =>
      if !r.enhancedQuery.isEmpty then (.ok (.shaped r), fi, st2)
      else
        -- object with falsy enhancedQuery: JSON.parse of a non-string
        -- fails in all three recovery stages, so the mock substitutes
        (.ok (.shaped (generateMockSmartSearchResult query E.month E.day E.randTrend)), fi, st2)
    | (.ok (.text s), fi, st2) =>
      match safeJsonParse E.jsonParse s with
      | some j =>
        if jsTruthy j then (.ok (.raw j), fi, st2)
        else (.ok (.shaped (generateMockSmartSearchResult query E.month E.day E.randTrend)), fi, st2)
      | none =>
        (.ok (.shaped (generateMockSmartSearchResult query E.month E.day E.randTrend)), fi, st2)
    | (.error e, fi, st2) => (.error e, fi, st2)

/-- Embedding of `enhanceSearchQuery`: the body wrapped in the terminal
catch that substitutes a mock result for any internal failure. -/
def enhanceSearchQuery (E : SvcEnv) (st : SvcState) (query : Txt) :
    FacOut SmartSearchResult × Nat × SvcState :=
  match enhanceBody E st query with
  | (.ok o, fi, st2) => (o, fi, st2)
  | (.error _, fi, st2) =>
    (.shaped (generateMockSmartSearchResult query E.month E.day E.randTrend), fi, st2)

/-- Leading piece of the `categorizeProducts` prompt template. -/
def categorizePromptPre : Txt := "\n        Categorize these products: ".data

/-- Trailing piece of the `categorizeProducts` prompt template. -/
def categorizePromptPost : Txt := "\n        \n        You must return ONLY valid JSON array with this exact structure, no markdown, no explanations:\n        [\n          \x7b\n            \"category\": \"main category\",\n            \"confidence\": 0.95,\n            \"subcategory\": \"subcategory\"\n          \x7d\n        ]\n        \n        CRITICAL: Return ONLY the JSON array above, nothing else.\n      ".data

/-- The `categorizeProducts` structured-JSON instruction prompt. -/
def categorizePrompt (products : List ProductLite) : Txt :=
  categorizePromptPre ++ joinCommaSp (products.map (fun p => p.title)) ++ categorizePromptPost

/-- Body of `categorizeProducts` (the contents of its try block). -/
def categorizeBody (E : SvcEnv) (st : SvcState) (products : List ProductLite) :
    Except JsError (FacOut (List ProductCategory)) × Nat × SvcState :=
  if E.prod || st.useMockData then (.ok (.shaped generateMockCategories), 0, st)
  else
    match makeApiRequest E st (categorizePrompt products) with
    | (.ok (.smart _), fi, st2) =>
      -- JSON.parse of a non-string object fails in all three stages
      (.ok (.shaped generateMockCategories), fi, st2)
    | (.ok (.text s), fi, st2) =>
      match safeJsonParse E.jsonParse s with
      | some j =>
        if jsTruthy j then (.ok (.raw j), fi, st2)
        else (.ok (.shaped generateMockCategories), fi, st2)
      | none => (.ok (.shaped generateMockCategories), fi, st2)
    | (.error e, fi, st2) => (.error e, fi, st2)

/-- Embedding of `categorizeProducts`. -/
def categorizeProducts (E : SvcEnv) (st : SvcState) (products : List ProductLite) :
    FacOut (List ProductCategory) × Nat × SvcState :=
  match categorizeBody E st products with
  | (.ok o, fi, st2) => (o, fi, st2)
  | (.error _, fi, st2) => (.shaped generateMockCategories, fi, st2)

/-- Leading piece of the `analyzeMarketTrends` prompt template. -/
def analyzePromptPre : Txt := "\n        Analyze market trends for \"".data

/-- Middle piece of the `analyzeMarketTrends` prompt template. -/
def analyzePromptMid : Txt := "\" with prices: ".data

/-- Trailing piece of the `analyzeMarketTrends` prompt template. -/
def analyzePromptPost : Txt := "\n        \n        You must return ONLY valid JSON with this exact structure, no markdown, no explanations:\n        \x7b\n          \"priceRange\": \"price range in INR (₹)\",\n          \"marketTrend\": \"increasing/decreasing/stable\",\n          \"bestTimeToBuy\": \"recommendation\",\n          \"pricePrediction\": \"prediction\",\n          \"marketInsights\": [\"insight1\", \"insight2\"]\n        \x7d\n        \n        IMPORTANT: All prices must be in Indian Rupees (₹) format, not USD ($).\n        CRITICAL: Return ONLY the JSON object above, nothing else.\n      ".data

/-- The `analyzeMarketTrends` structured-JSON instruction prompt. -/
def analyzePrompt (query : Txt) (products : List ProductLite) : Txt :=
  analyzePromptPre ++ query ++ analyzePromptMid
    ++ joinCommaSp (products.map (fun p => p.price)) ++ analyzePromptPost

/-- Body of `analyzeMarketTrends` (the contents of its try block). -/
def analyzeBody (E : SvcEnv) (st : SvcState) (query : Txt) (products : List ProductLite) :
    Except JsError (FacOut MarketAnalysis) × Nat × SvcState :=
  if E.prod || st.useMockData then
    (.ok (.shaped (generateMockMarketAnalysis E.month E.day E.randTrend)), 0, st)
  else
    match makeApiRequest E st (analyzePrompt query products) with
    | (.ok (.smart _), fi, st2) =>
      (.ok (.shaped (generateMockMarketAnalysis E.month E.day E.randTrend)), fi, st2)
    | (.ok (.text s), fi, st2) =>
      match safeJsonParse E.jsonParse s with
      | some j =>
        if jsTruthy j then (.ok (.raw j), fi, st2)
        else (.ok (.shaped (generateMockMarketAnalysis E.month E.day E.randTrend)), fi, st2)
      | none => (.ok (.shaped (generateMockMarketAnalysis E.month E.day E.randTrend)), fi, st2)
    | (.error e, fi, st2) => (.error e, fi, st2)

/-- Embedding of `analyzeMarketTrends`. -/
def analyzeMarketTrends (E : SvcEnv) (st : SvcState) (query : Txt) (products : List ProductLite) :
    FacOut MarketAnalysis × Nat × SvcState :=
  match analyzeBody E st query products with
  | (.ok o, fi, st2) => (o, fi, st2)
  | (.error _, fi, st2) =>
    (.shaped (generateMockMarketAnalysis E.month E.day E.randTrend), fi, st2)

/-- Leading piece of the `getPersonalizedRecommendations` prompt template. -/
def recommendPromptPre : Txt := "\n        Based on user query: \"".data

/-- Middle piece of the `getPersonalizedRecommendations` prompt template. -/
def recommendPromptMid : Txt := "\" and search history: [".data

/-- Trailing piece of the `getPersonalizedRecommendations` prompt template. -/
def recommendPromptPost : Txt := "]\n        \n        You must return ONLY valid JSON array with this exact structure, no markdown, no explanations:\n        [\n          \x7b\n            \"productName\": \"product name\",\n            \"reason\": \"why recommended\",\n            \"category\": \"category\",\n            \"estimatedPrice\": \"price in INR (₹)\",\n            \"confidence\": 0.85\n          \x7d\n        ]\n        \n        IMPORTANT: All prices must be in Indian Rupees (₹) format, not USD ($).\n        CRITICAL: Return ONLY the JSON array above, nothing else.\n      ".data

/-- The `getPersonalizedRecommendations` structured-JSON instruction prompt. -/
def recommendPrompt (userQuery : Txt) (searchHistory : List Txt) : Txt :=
  recommendPromptPre ++ userQuery ++ recommendPromptMid
    ++ joinCommaSp searchHistory ++ recommendPromptPost

/-- Body of `getPersonalizedRecommendations` (the contents of its try block). -/
def recommendBody (E : SvcEnv) (st : SvcState) (userQuery : Txt) (searchHistory : List Txt) :
    Except JsError (FacOut (List ProductRecommendation)) × Nat × SvcState :=
  if E.prod || st.useMockData then (.ok (.shaped generateMockRecommendations), 0, st)
  else
    match makeApiRequest E st (recommendPrompt userQuery searchHistory) with
    | (.ok (.smart _), fi, st2) =>
      (.ok (.shaped generateMockRecommendations), fi, st2)
    | (.ok (.text s), fi, st2) =>
      match safeJsonParse E.jsonParse s with
      | some j =>
        if jsTruthy j then (.ok (.raw j), fi, st2)
        else (.ok (.shaped generateMockRecommendations), fi, st2)
      | none => (.ok (.shaped generateMockRecommendations), fi, st2)
    | (.error e, fi, st2) => (.error e, fi, st2)

/-- Embedding of `getPersonalizedRecommendations`. -/
def getPersonalizedRecommendations (E : SvcEnv) (st : SvcState)
    (userQuery : Txt) (searchHistory : List Txt) :
    FacOut (List ProductRecommendation) × Nat × SvcState :=
  match recommendBody E st userQuery searchHistory with
  | (.ok o, fi, st2) => (o, fi, st2)
  | (.error _, fi, st2) => (.shaped generateMockRecommendations, fi, st2)

/-- Disjunction of the nine keyword groups of the category classifier. -/
def categoryGroupMatches (query : Txt) : Bool :=
  regexTestI pCatPhone query || regexTestI pCatLaptop query || regexTestI pCatTv query
    || regexTestI pCatAudio query || regexTestI pCatWatch query || regexTestI pCatCloth query
    || regexTestI pCatShoes query || regexTestI pCatBook query || regexTestI pCatHome query

/-- Field name of the `SmartSearchResult` interface. -/
def fnEnhancedQuery : Txt := "enhancedQuery".data

/-- Field name of the `SmartSearchResult` interface. -/
def fnCategories : Txt := "categories".data

/-- Field name of the `SmartSearchResult` interface. -/
def fnMarketAnalysis : Txt := "marketAnalysis".data

/-- Field name of the `SmartSearchResult` interface. -/
def fnRecommendations : Txt := "recommendations".data

/-- Field name of the `SmartSearchResult` interface. -/
def fnSearchTips : Txt := "searchTips".data

/-- Field lookup on a JSON object. -/
def hasField (fields : List (Txt × JsonVal)) (name : Txt) : Bool :=
  fields.any (fun f => f.1 == name)

/-- Shape predicate written from the spec's words (§3): a façade result is
a fully-shaped `SmartSearchResult` only if it is a typed value, or a JSON
object carrying all five declared fields; in particular a JSON array is
never fully shaped. -/
def facOutIsShapedPerSpec : FacOut SmartSearchResult → Bool
  | .shaped _ => true
  | .raw j =>
    match j with
    | .obj fields =>
      hasField fields fnEnhancedQuery && hasField fields fnCategories
        && hasField fields fnMarketAnalysis && hasField fields fnRecommendations
        && hasField fields fnSearchTips
    | _ => false

/-- Character test used by the round-trip hypotheses: not one of the four
brace/bracket characters. -/
def notBracket (ch : Char) : Bool :=
  ch != obr && ch != cbr && ch != osq && ch != csq

/-- Base environment for concrete scenarios: development mode, online,
signal never fired, `miniJsonParse` as the platform parse, fixed date and
random draws. -/
def baseEnv (fetches : Nat → FetchOutcome) : SvcEnv :=
  { prod := false, online := true, fetches := fetches,
    abortedBefore := fun _ => false, jsonParse := miniJsonParse,
    month := 3, day := 5, randTrend := 0, randReply := 0 }

/-- A syntactically plausible development API key. -/
def testKeyTxt : Txt := "AIzaTestKey123".data

/-- Service state with mock mode off. -/
def stLive : SvcState := { apiKey := testKeyTxt, useMockData := false }

/-- Service state with mock mode on. -/
def stMock : SvcState := { apiKey := testKeyTxt, useMockData := true }

/-- A short test query. -/
def txtQ : Txt := 'q' :: []

/-- The model text `hi` used in concrete success responses. -/
def txtHello : Txt := 'h' :: 'i' :: []

/-- The model text `[1]`. -/
def txtArrOne : Txt := osq :: '1' :: csq :: []

/-- Environment whose three fetches all return HTTP 429. -/
def env429All : SvcEnv := baseEnv (fun _ => .resp 429 .malformed)

/-- Environment returning 429 on the first two fetches and success on the
third. -/
def env429TwiceOk : SvcEnv :=
  baseEnv (fun n => if n ≤ 1 then .resp 429 .malformed else .resp 200 (.ok txtHello))

/-- Environment whose first fetch fails at the transport level, with the
cancellation signal firing during the backoff sleep that follows (so the
signal is observed fired at every later pre-fetch check). -/
def envC6 : SvcEnv :=
  { baseEnv (fun _ => .netError ("connection reset".data)) with
    abortedBefore := fun n => n ≥ 1 }

/-- Environment returning a non-429 HTTP failure on the first fetch and
success on the second. -/
def env500Then200 : SvcEnv :=
  baseEnv (fun n => if n = 0 then .resp 500 .malformed else .resp 200 (.ok txtHello))

/-- Environment whose first fetch succeeds with model text `[1]`. -/
def envArr : SvcEnv := baseEnv (fun _ => .resp 200 (.ok txtArrOne))

/-- Offline environment. -/
def envOffline : SvcEnv := { baseEnv (fun _ => .resp 200 (.ok txtHello)) with online := false }

/-- The query `iphone`. -/
def iphoneQuery : Txt := "iphone".data

/-- The enhanced query expected for `iphone`. -/
def iphoneEnhanced : Txt := "iphone best deals 2024".data

/-- The query `iphone pro`, matching both the Apple and the expensive
keyword sets. -/
def iphoneProQuery : Txt := "iphone pro".data

/-- A query matching no keyword group. -/
def xyzQuery : Txt := "xyz".data

/-- The error value produced by the rate-limit-free abort-during-sleep
scenario of `envC6`. -/
def errC6 : JsError :=
  ⟨.genericName, msgAllFailedPre ++ endpointErrMsg epOldPro msgAborted⟩

/-- Concrete serialized JSON object with no array inside, for the
round-trip witness. -/
def rtObjTxt : Txt := "\x7b\"a\":1\x7d".data

/-- The value of `rtObjTxt`. -/
def rtObjVal : JsonVal := .obj [('a' :: [], .num 1)]

/-- Leading prose of the round-trip witness. -/
def rtPre : Txt := "Result:".data

/-- Trailing prose of the round-trip witness. -/
def rtPost : Txt := " ok.".data

/-- Concrete serialized JSON object containing an array, for the
round-trip counterexample. -/
def cxObjSpan : Txt := "\x7b\"a\":[1]\x7d".data

/-- The value of `cxObjSpan`. -/
def cxObjVal : JsonVal := .obj [('a' :: [], .arr [.num 1])]

/-- The round-trip counterexample raw text: `cxObjSpan` in a fenced code
block with leading and trailing prose. -/
def cxFencedProse : Txt :=
  rtPre ++ (fenceJson ++ ('\n' :: [])) ++ cxObjSpan ++ (('\n' :: fence3) ++ rtPost)

/-- Fenced text without surrounding prose, for the stage-2 preference
counterexample. -/
def cxFenced : Txt := fenceJson ++ ('\n' :: cxObjSpan) ++ ('\n' :: fence3)

/-- The round-trip witness raw text: `rtObjTxt` in a fenced code block
with leading and trailing prose. -/
def rtRawA : Txt := rtPre ++ (fenceJson ++ ('\n' :: [])) ++ rtObjTxt ++ (('\n' :: fence3) ++ rtPost)

/-- The round-trip witness raw text: `rtObjTxt` embedded in prose with no
fence. -/
def rtRawB : Txt := rtPre ++ rtObjTxt ++ rtPost

theorem dropWhile_append_of_forall {p : Char → Bool} {l₁ l₂ : Txt}
    (h : ∀ a ∈ l₁, p a = true) : (l₁ ++ l₂).dropWhile p = l₂.dropWhile p := by
  induction l₁ with
  | nil => simp
  | cons x xs ih =>
    rw [List.cons_append, List.dropWhile_cons_of_pos (h x (List.mem_cons_self x xs))]
    exact ih fun a ha => h a (List.mem_cons_of_mem x ha)

theorem dropWhile_eq_nil_of_forall {p : Char → Bool} {l : Txt}
    (h : ∀ a ∈ l, p a = true) : l.dropWhile p = [] := by
  induction l with
  | nil => rfl
  | cons x xs ih =>
    rw [List.dropWhile_cons_of_pos (h x (List.mem_cons_self x xs))]
    exact ih fun a ha => h a (List.mem_cons_of_mem x ha)

theorem matchSpan_append {o c : Char} {pre s post : Txt}
    (hpre : ∀ ch ∈ pre, (ch != o) = true)
    (hpost : ∀ ch ∈ post, (ch != c) = true)
    (hs1 : s.head? = some o)
    (hs2 : s.reverse.head? = some c) :
    matchSpan o c (pre ++ s ++ post) = some s := by
  obtain ⟨s1, rfl⟩ : ∃ t, s = o :: t := by
    cases s with
    | nil => simp at hs1
    | cons a t =>
      simp only [List.head?_cons, Option.some.injEq] at hs1
      exact ⟨t, by rw [hs1]⟩
  have h1 : (pre ++ (o :: s1) ++ post).dropWhile (fun ch => ch != o)
      = (o :: s1) ++ post := by
    rw [List.append_assoc, dropWhile_append_of_forall hpre, List.cons_append,
      List.dropWhile_cons_of_neg (by simp)]
  have h2 : ((o :: s1) ++ post).reverse.dropWhile (fun ch => ch != c)
      = (o :: s1).reverse := by
    rw [List.reverse_append,
      dropWhile_append_of_forall (fun a ha => hpost a (List.mem_reverse.mp ha))]
    obtain ⟨r, hr⟩ : ∃ r, (o :: s1).reverse = c :: r := by
      cases hrev : (o :: s1).reverse with
      | nil => exact absurd (congrArg List.length hrev) (by simp)
      | cons b r =>
        rw [hrev] at hs2
        simp only [List.head?_cons, Option.some.injEq] at hs2
        exact ⟨r, by rw [hs2]⟩
    rw [hr, List.dropWhile_cons_of_neg (by simp), ← hr]
  simp only [matchSpan]
  rw [h1, h2, List.reverse_reverse]
  simp

theorem matchSpan_none {o c : Char} {s : Txt}
    (h : ∀ ch ∈ s, (ch != o) = true) : matchSpan o c s = none := by
  simp only [matchSpan]
  rw [dropWhile_eq_nil_of_forall h]
  simp

theorem cleanGeminiResponse_nofence {c m : Txt}
    (htrim : trimTxt c = c)
    (hf1 : startsWithT fenceJson c = false)
    (hf2 : startsWithT fence3 c = false)
    (hf3 : endsWithT fence3 c = false)
    (hm : matchSpan obr cbr c = some m) :
    cleanGeminiResponse c = (matchSpan osq csq m).getD m := by
  simp only [cleanGeminiResponse, htrim, hf1, hf2, hf3, Bool.false_eq_true, if_false, hm]
  cases h2 : matchSpan osq csq m <;> simp [h2, Option.getD]

theorem notBracket_spec {ch : Char} (h : notBracket ch = true) :
    (ch != obr) = true ∧ (ch != cbr) = true ∧ (ch != osq) = true ∧ (ch != csq) = true := by
  simp only [notBracket, Bool.and_eq_true] at h
  exact ⟨h.1.1.1, h.1.1.2, h.1.2, h.2⟩

theorem fenceJsonNl_no_obr : ∀ ch ∈ fenceJson ++ ('\n' :: []), (ch != obr) = true := by decide

theorem nlFence3_no_cbr : ∀ ch ∈ '\n' :: fence3, (ch != cbr) = true := by decide

/-- Claim C3 (counterexample): on a fenced object containing an array, the
cleaning pass narrows to the inner array span, not the outermost object
span, and stage 2 therefore parses an array value. -/
theorem spec_C3_counterexample :
    cleanGeminiResponse cxFenced = txtArrOne
    ∧ cleanGeminiResponse cxFenced ≠ cxObjSpan
    ∧ safeJsonParse miniJsonParse cxFenced = some (JsonVal.arr [JsonVal.num 1]) :=
  ⟨rfl, by decide, rfl⟩

/-- Claim C3 (amended): in the cleaning pass the object-span extraction
runs first, but the array-span extraction is then applied to the extracted
text, so the outermost object span is the parsed text only when it
contains no array span; otherwise the array span inside it is extracted
instead. -/
theorem spec_C3_amended (c m : Txt)
    (htrim : trimTxt c = c)
    (hf1 : startsWithT fenceJson c = false)
    (hf2 : startsWithT fence3 c = false)
    (hf3 : endsWithT fence3 c = false)
    (hm : matchSpan obr cbr c = some m) :
    cleanGeminiResponse c = (matchSpan osq csq m).getD m
    ∧ ((∀ ch ∈ m, (ch != osq) = true) → cleanGeminiResponse c = m) := by
  have h := cleanGeminiResponse_nofence htrim hf1 hf2 hf3 hm
  refine ⟨h, fun hno => ?_⟩
  rw [h, matchSpan_none hno]
  rfl

/-- Claim C3 (witness): on a bare object containing an array the cleaning
pass produces the inner array span. -/
theorem spec_C3_amended_witness : cleanGeminiResponse cxObjSpan = txtArrOne := by
  have h := (spec_C3_amended cxObjSpan cxObjSpan rfl rfl rfl rfl rfl).1
  rw [h]
  rfl

/-- Claim C4 (counterexample): a well-formed JSON object containing an
array, serialized, fenced and wrapped in prose, is not recovered equal by
stage 2: the cleaning pass narrows to the inner array span and stage 2
yields the array value instead. -/
theorem spec_C4_counterexample :
    miniJsonParse cxObjSpan = some cxObjVal
    ∧ miniJsonParse cxFencedProse = none
    ∧ cleanGeminiResponse cxFencedProse = txtArrOne
    ∧ safeJsonParse miniJsonParse cxFencedProse = some (JsonVal.arr [JsonVal.num 1])
    ∧ JsonVal.arr [JsonVal.num 1] ≠ cxObjVal :=
  ⟨rfl, rfl, rfl, rfl, by simp [cxObjVal]⟩

/-- Claim C4 (amended): for a well-formed JSON object whose serialization
contains no array span, wrapped in a fenced code block with bracket-free
leading/trailing prose, stage 2 (the cleaning pass) recovers an equal
value; embedded in bracket-free prose with no fence, stage 2 — not
stage 3 — recovers it; and the bare serialization is recovered by stage 1
directly. -/
theorem spec_C4_amended (jp : Txt → Option JsonVal) (v : JsonVal) (s p1 p2 rawA rawB : Txt)
    (hparse : jp s = some v)
    (hs1 : s.head? = some obr)
    (hs2 : s.reverse.head? = some cbr)
    (hnoarr : ∀ ch ∈ s, (ch != osq) = true)
    (hp1 : ∀ ch ∈ p1, notBracket ch = true)
    (hp2 : ∀ ch ∈ p2, notBracket ch = true)
    (hrawA : rawA = p1 ++ (fenceJson ++ ('\n' :: [])) ++ s ++ (('\n' :: fence3) ++ p2))
    (htrimA : trimTxt rawA = rawA)
    (hfA1 : startsWithT fenceJson rawA = false)
    (hfA2 : startsWithT fence3 rawA = false)
    (hfA3 : endsWithT fence3 rawA = false)
    (hstage1A : jp rawA = none)
    (hrawB : rawB = p1 ++ s ++ p2)
    (htrimB : trimTxt rawB = rawB)
    (hfB1 : startsWithT fenceJson rawB = false)
    (hfB2 : startsWithT fence3 rawB = false)
    (hfB3 : endsWithT fence3 rawB = false)
    (hstage1B : jp rawB = none) :
    cleanGeminiResponse rawA = s ∧ safeJsonParse jp rawA = some v
    ∧ cleanGeminiResponse rawB = s ∧ safeJsonParse jp rawB = some v
    ∧ safeJsonParse jp s = some v := by
  have hpreA : ∀ ch ∈ p1 ++ (fenceJson ++ ('\n' :: [])), (ch != obr) = true := by
    intro ch hch
    rcases List.mem_append.mp hch with h | h
    · exact (notBracket_spec (hp1 ch h)).1
    · exact fenceJsonNl_no_obr ch h
  have hpostA : ∀ ch ∈ ('\n' :: fence3) ++ p2, (ch != cbr) = true := by
    intro ch hch
    rcases List.mem_append.mp hch with h | h
    · exact nlFence3_no_cbr ch h
    · exact (notBracket_spec (hp2 ch h)).2.1
  have hbrA : matchSpan obr cbr rawA = some s := by
    rw [hrawA]
    exact matchSpan_append hpreA hpostA hs1 hs2
  have hcleanA : cleanGeminiResponse rawA = s := by
    rw [cleanGeminiResponse_nofence htrimA hfA1 hfA2 hfA3 hbrA, matchSpan_none hnoarr]
    rfl
  have hbrB : matchSpan obr cbr rawB = some s := by
    rw [hrawB]
    exact matchSpan_append
      (fun ch h => (notBracket_spec (hp1 ch h)).1)
      (fun ch h => (notBracket_spec (hp2 ch h)).2.1) hs1 hs2
  have hcleanB : cleanGeminiResponse rawB = s := by
    rw [cleanGeminiResponse_nofence htrimB hfB1 hfB2 hfB3 hbrB, matchSpan_none hnoarr]
    rfl
  refine ⟨hcleanA, ?_, hcleanB, ?_, ?_⟩
  · simp only [safeJsonParse, hstage1A, hcleanA, hparse]
  · simp only [safeJsonParse, hstage1B, hcleanB, hparse]
  · simp only [safeJsonParse, hparse]


/-- Claim C4 (witness). -/
theorem spec_C4_amended_witness :
    cleanGeminiResponse rtRawA = rtObjTxt
    ∧ safeJsonParse miniJsonParse rtRawA = some rtObjVal
    ∧ cleanGeminiResponse rtRawB = rtObjTxt
    ∧ safeJsonParse miniJsonParse rtRawB = some rtObjVal
    ∧ safeJsonParse miniJsonParse rtObjTxt = some rtObjVal :=
  spec_C4_amended miniJsonParse rtObjVal rtObjTxt rtPre rtPost rtRawA rtRawB rfl rfl rfl
    (by decide) (by decide) (by decide) rfl rfl rfl rfl rfl rfl rfl rfl rfl rfl rfl rfl

/-- Claim C9: the category classifier always returns exactly two entries,
every confidence lies in the half-open interval of zero to one, and when
no keyword group matches the two default General/Retail entries are
returned. -/
theorem c9_len (query : Txt) : (generateDynamicCategories query).length = 2 := by
  unfold generateDynamicCategories
  split_ifs <;> rfl

theorem c9_conf (query : Txt) :
    ∀ pc ∈ generateDynamicCategories query, 0 < pc.confidence ∧ pc.confidence ≤ 1 := by
  intro pc hpc
  unfold generateDynamicCategories at hpc
  split_ifs at hpc <;>
    (simp only [List.mem_cons, List.not_mem_nil, or_false] at hpc
     rcases hpc with rfl | rfl <;> exact ⟨by norm_num, by norm_num⟩)

theorem c9_default (query : Txt) (hng : categoryGroupMatches query = false) :
    generateDynamicCategories query =
      [⟨cGeneral, 0.80, some sConsumerGoods⟩, ⟨cRetail, 0.70, some sMiscellaneous⟩] := by
  unfold categoryGroupMatches at hng
  simp only [Bool.or_eq_false_iff, and_assoc] at hng
  obtain ⟨n1, n2, n3, n4, n5, n6, n7, n8, n9⟩ := hng
  unfold generateDynamicCategories
  simp only [n1, n2, n3, n4, n5, n6, n7, n8, n9, Bool.false_eq_true, if_false]

theorem spec_C9 (query : Txt) :
    (generateDynamicCategories query).length = 2
    ∧ (∀ pc ∈ generateDynamicCategories query, 0 < pc.confidence ∧ pc.confidence ≤ 1)
    ∧ (categoryGroupMatches query = false →
        generateDynamicCategories query =
          [⟨cGeneral, 0.80, some sConsumerGoods⟩, ⟨cRetail, 0.70, some sMiscellaneous⟩]) :=
  ⟨c9_len query, c9_conf query, c9_default query⟩

/-- Claim C9 (witness): a query matching no group yields the default pair. -/
theorem spec_C9_witness :
    generateDynamicCategories xyzQuery =
      [⟨cGeneral, 0.80, some sConsumerGoods⟩, ⟨cRetail, 0.70, some sMiscellaneous⟩] :=
  (spec_C9 xyzQuery).2.2 (by decide)

theorem attemptLoop_resp_ok {E : SvcEnv} {mr rem att fi : Nat} {st : SvcState}
    {last : Option (Nat × Envelope)} {status : Nat} {body : Envelope}
    (hab : E.abortedBefore fi = false)
    (hf : E.fetches fi = .resp status body)
    (hok : statusOk status = true) :
    attemptLoop E mr (rem + 1) att fi st last = (.gotResp status body, fi + 1, st) := by
  unfold attemptLoop
  rw [hab, hf]
  simp [hok]

theorem attemptLoop_resp_notok_other {E : SvcEnv} {mr rem att fi : Nat} {st : SvcState}
    {last : Option (Nat × Envelope)} {status : Nat} {body : Envelope}
    (hab : E.abortedBefore fi = false)
    (hf : E.fetches fi = .resp status body)
    (hok : statusOk status = false)
    (h429 : status ≠ 429) :
    attemptLoop E mr (rem + 1) att fi st last = (.gotResp status body, fi + 1, st) := by
  unfold attemptLoop
  rw [hab, hf]
  simp [hok, h429]

theorem attemptLoop_429_retry {E : SvcEnv} {mr rem att fi : Nat} {st : SvcState}
    {last : Option (Nat × Envelope)} {body : Envelope}
    (hab : E.abortedBefore fi = false)
    (hf : E.fetches fi = .resp 429 body)
    (hatt : att < mr) :
    attemptLoop E mr (rem + 1) att fi st last
      = attemptLoop E mr rem (att + 1) (fi + 1) st (some (429, body)) := by
  conv_lhs => unfold attemptLoop
  rw [hab, hf]
  simp [statusOk, hatt]

theorem attemptLoop_429_exhaust {E : SvcEnv} {mr rem att fi : Nat} {st : SvcState}
    {last : Option (Nat × Envelope)} {body : Envelope}
    (hab : E.abortedBefore fi = false)
    (hf : E.fetches fi = .resp 429 body)
    (hatt : ¬ att < mr) :
    attemptLoop E mr (rem + 1) att fi st last
      = (.sentinel, fi + 1, forceMockMode E.prod st) := by
  unfold attemptLoop
  rw [hab, hf]
  simp [statusOk, hatt]

theorem retry_429x3 {E : SvcEnv} {st : SvcState} {fi : Nat} {b0 b1 b2 : Envelope}
    (hp : E.prod = false)
    (ha0 : E.abortedBefore fi = false) (ha1 : E.abortedBefore (fi + 1) = false)
    (ha2 : E.abortedBefore (fi + 2) = false)
    (h0 : E.fetches fi = .resp 429 b0) (h1 : E.fetches (fi + 1) = .resp 429 b1)
    (h2 : E.fetches (fi + 2) = .resp 429 b2) :
    makeRequestWithRetry E st 2 fi = (.sentinel, fi + 3, { st with useMockData := true }) := by
  calc makeRequestWithRetry E st 2 fi
      = attemptLoop E 2 (2 + 1) 0 fi st none := by
        unfold makeRequestWithRetry
        rw [hp]
        simp
    _ = attemptLoop E 2 2 (0 + 1) (fi + 1) st (some (429, b0)) :=
        attemptLoop_429_retry ha0 h0 (by omega)
    _ = attemptLoop E 2 (1 + 1) 1 (fi + 1) st (some (429, b0)) := rfl
    _ = attemptLoop E 2 1 (1 + 1) (fi + 1 + 1) st (some (429, b1)) :=
        attemptLoop_429_retry ha1 h1 (by omega)
    _ = attemptLoop E 2 (0 + 1) 2 (fi + 2) st (some (429, b1)) := rfl
    _ = (.sentinel, fi + 2 + 1, forceMockMode E.prod st) :=
        attemptLoop_429_exhaust ha2 h2 (by omega)
    _ = (.sentinel, fi + 3, { st with useMockData := true }) := by
        rw [hp]
        simp [forceMockMode]

theorem retry_non429 {E : SvcEnv} {st : SvcState} {fi status : Nat} {body : Envelope}
    (hp : E.prod = false) (ha : E.abortedBefore fi = false)
    (hf : E.fetches fi = .resp status body) (h429 : status ≠ 429) :
    makeRequestWithRetry E st 2 fi = (.gotResp status body, fi + 1, st) := by
  have hstep : attemptLoop E 2 (2 + 1) 0 fi st none = (.gotResp status body, fi + 1, st) := by
    by_cases hok : statusOk status = true
    · exact attemptLoop_resp_ok ha hf hok
    · exact attemptLoop_resp_notok_other ha hf (by simpa using hok) h429
  unfold makeRequestWithRetry
  rw [hp]
  simpa using hstep

theorem retry_429_429_ok {E : SvcEnv} {st : SvcState} {fi : Nat} {b0 b1 b2 : Envelope} {s2 : Nat}
    (hp : E.prod = false)
    (ha0 : E.abortedBefore fi = false) (ha1 : E.abortedBefore (fi + 1) = false)
    (ha2 : E.abortedBefore (fi + 2) = false)
    (h0 : E.fetches fi = .resp 429 b0) (h1 : E.fetches (fi + 1) = .resp 429 b1)
    (h2 : E.fetches (fi + 2) = .resp s2 b2) (hok : statusOk s2 = true) :
    makeRequestWithRetry E st 2 fi = (.gotResp s2 b2, fi + 3, st) := by
  calc makeRequestWithRetry E st 2 fi
      = attemptLoop E 2 (2 + 1) 0 fi st none := by
        unfold makeRequestWithRetry
        rw [hp]
        simp
    _ = attemptLoop E 2 2 (0 + 1) (fi + 1) st (some (429, b0)) :=
        attemptLoop_429_retry ha0 h0 (by omega)
    _ = attemptLoop E 2 (1 + 1) 1 (fi + 1) st (some (429, b0)) := rfl
    _ = attemptLoop E 2 1 (1 + 1) (fi + 1 + 1) st (some (429, b1)) :=
        attemptLoop_429_retry ha1 h1 (by omega)
    _ = attemptLoop E 2 (0 + 1) 2 (fi + 2) st (some (429, b1)) := rfl
    _ = (.gotResp s2 b2, fi + 2 + 1, st) := attemptLoop_resp_ok ha2 h2 hok
    _ = (.gotResp s2 b2, fi + 3, st) := rfl

/-- Claim C5 (counterexample): with 429 on exactly the first two attempts
and success on the third, the routine returns the successful response, not
the sentinel, and mock mode is not forced. -/
theorem spec_C5_counterexample :
    makeRequestWithRetry env429TwiceOk stLive 2 0 = (.gotResp 200 (.ok txtHello), 3, stLive)
    ∧ (makeRequestWithRetry env429TwiceOk stLive 2 0).1 ≠ RetryOut.sentinel
    ∧ (makeRequestWithRetry env429TwiceOk stLive 2 0).2.2.useMockData = false :=
  ⟨by decide, by decide, by decide⟩

/-- Claim C5 (amended): the retry budget is one initial attempt plus two
retries; with 429 on all three attempts the routine returns the sentinel
after exactly the third fetch and mock mode becomes true, while with 429
on only the first two attempts the third attempt's success is returned. -/
theorem spec_C5_amended (E E2 : SvcEnv) (st : SvcState) (b0 b1 b2 c0 c1 c2 : Envelope) (s2 : Nat)
    (hp : E.prod = false)
    (ha0 : E.abortedBefore 0 = false) (ha1 : E.abortedBefore 1 = false)
    (ha2 : E.abortedBefore 2 = false)
    (h0 : E.fetches 0 = .resp 429 b0) (h1 : E.fetches 1 = .resp 429 b1)
    (h2 : E.fetches 2 = .resp 429 b2)
    (hp2 : E2.prod = false)
    (ga0 : E2.abortedBefore 0 = false) (ga1 : E2.abortedBefore 1 = false)
    (ga2 : E2.abortedBefore 2 = false)
    (g0 : E2.fetches 0 = .resp 429 c0) (g1 : E2.fetches 1 = .resp 429 c1)
    (g2 : E2.fetches 2 = .resp s2 c2) (gok : statusOk s2 = true) :
    makeRequestWithRetry E st 2 0 = (.sentinel, 3, { st with useMockData := true })
    ∧ makeRequestWithRetry E2 st 2 0 = (.gotResp s2 c2, 3, st) :=
  ⟨retry_429x3 hp ha0 ha1 ha2 h0 h1 h2,
   retry_429_429_ok hp2 ga0 ga1 ga2 g0 g1 g2 gok⟩

/-- Claim C5 (witness). -/
theorem spec_C5_amended_witness :
    makeRequestWithRetry env429All stLive 2 0 = (.sentinel, 3, { stLive with useMockData := true })
    ∧ makeRequestWithRetry env429TwiceOk stLive 2 0 = (.gotResp 200 (.ok txtHello), 3, stLive) :=
  spec_C5_amended env429All env429TwiceOk stLive .malformed .malformed .malformed
    .malformed .malformed (.ok txtHello) 200
    rfl rfl rfl rfl rfl rfl rfl rfl rfl rfl rfl rfl rfl rfl rfl

/-- Claim C6 (code bug): when the cancellation signal fires during the
backoff sleep after a transport failure, the pre-fetch aborted check
throws a plain error whose name is not AbortError, so the routine's own
catch retries it and the orchestrator proceeds to the remaining endpoints,
finally surfacing the aggregated all-endpoints-failed error instead of the
Timeout-classified error; only one fetch was ever issued, yet the third
endpoint appears in the surfaced error. -/
theorem spec_C6_bug :
    makeApiRequest envC6 stLive txtQ = (.error errC6, 1, stLive)
    ∧ errC6.msg ≠ msgTimeout
    ∧ errC6.name = ErrName.genericName
    ∧ containsSub errC6.msg epOldPro = true :=
  ⟨rfl, by decide, rfl, by decide⟩

/-- Claim C7: with a non-429 HTTP failure from the first endpoint and an
HTTP success with a valid envelope from the second, `makeApiRequest`
returns the second endpoint's extracted text after exactly two fetches
(so no request ever goes to the third endpoint), leaving state unchanged. -/
theorem spec_C7 (E : SvcEnv) (st : SvcState) (prompt t : Txt) (s0 s1 : Nat) (b0 : Envelope)
    (hp : E.prod = false) (hon : E.online = true) (hmock : st.useMockData = false)
    (ha0 : E.abortedBefore 0 = false) (ha1 : E.abortedBefore 1 = false)
    (h0 : E.fetches 0 = .resp s0 b0) (h0ok : statusOk s0 = false) (h0not429 : s0 ≠ 429)
    (h1 : E.fetches 1 = .resp s1 (.ok t)) (h1ok : statusOk s1 = true) :
    makeApiRequest E st prompt = (.ok (.text t), 2, st) := by
  have h1not429 : s1 ≠ 429 := by
    simp only [statusOk, Bool.and_eq_true, decide_eq_true_eq] at h1ok
    omega
  have hr0 : makeRequestWithRetry E st 2 0 = (.gotResp s0 b0, 0 + 1, st) :=
    retry_non429 hp ha0 h0 h0not429
  have hr1 : makeRequestWithRetry E st 2 1 = (.gotResp s1 (.ok t), 1 + 1, st) :=
    retry_non429 hp ha1 h1 h1not429
  unfold makeApiRequest
  rw [hp, hmock, hon]
  simp only [Bool.false_eq_true, if_false, Bool.not_true, endpoints]
  unfold endpointLoop
  rw [hr0]
  simp only [h0ok, Bool.false_eq_true, if_false]
  unfold endpointLoop
  rw [show (0 + 1 : Nat) = 1 from rfl, hr1]
  simp [h1ok]

/-- Claim C7 (witness). -/
theorem spec_C7_witness :
    makeApiRequest env500Then200 stLive txtQ = (.ok (.text txtHello), 2, stLive) :=
  spec_C7 env500Then200 stLive txtQ txtHello 500 200 .malformed
    rfl rfl rfl rfl rfl rfl (by decide) (by decide) rfl (by decide)

/-- Implicit claim C10: when the retry routine exhausts its 429 budget and
returns the sentinel, `makeApiRequest` returns the conversational mock
reply from `generateMockResponse` for every prompt — marker-bearing
structured prompts included — never the structured mock object; by
contrast, the mock-mode short-circuit does return the structured mock
object for marker-bearing prompts. -/
theorem spec_C10 (E : SvcEnv) (st : SvcState) (prompt : Txt) (b0 b1 b2 : Envelope)
    (hp : E.prod = false) (hon : E.online = true) (hmock : st.useMockData = false)
    (ha0 : E.abortedBefore 0 = false) (ha1 : E.abortedBefore 1 = false)
    (ha2 : E.abortedBefore 2 = false)
    (h0 : E.fetches 0 = .resp 429 b0) (h1 : E.fetches 1 = .resp 429 b1)
    (h2 : E.fetches 2 = .resp 429 b2) :
    makeApiRequest E st prompt
      = (.ok (.text (generateMockResponse prompt E.randReply)), 3, { st with useMockData := true })
    ∧ (promptIsStructured prompt = true →
        makeApiRequest E { st with useMockData := true } prompt
          = (.ok (.smart (generateMockSmartSearchResult (extractQueryFromPrompt prompt)
              E.month E.day E.randTrend)), 0, { st with useMockData := true })) := by
  constructor
  · have hr : makeRequestWithRetry E st 2 0 = (.sentinel, 0 + 3, { st with useMockData := true }) :=
      retry_429x3 hp ha0 ha1 ha2 h0 h1 h2
    unfold makeApiRequest
    rw [hp, hmock, hon]
    simp only [Bool.false_eq_true, if_false, Bool.not_true, endpoints]
    unfold endpointLoop
    rw [hr]
  · intro hstr
    unfold makeApiRequest
    rw [hp]
    simp only [Bool.false_eq_true, if_false]
    simp [mockShortCircuit, hstr]

/-- Implicit claim C10 (witness): a prompt consisting of the enhancedQuery
marker itself still yields the conversational mock on the sentinel path. -/
theorem spec_C10_witness :
    makeApiRequest env429All stLive mkEnhanced
      = (.ok (.text (generateMockResponse mkEnhanced env429All.randReply)), 3,
          { stLive with useMockData := true })
    ∧ makeApiRequest env429All { stLive with useMockData := true } mkEnhanced
      = (.ok (.smart (generateMockSmartSearchResult (extractQueryFromPrompt mkEnhanced)
          env429All.month env429All.day env429All.randTrend)), 0,
          { stLive with useMockData := true }) :=
  have h := spec_C10 env429All stLive mkEnhanced .malformed .malformed .malformed
    rfl rfl rfl rfl rfl rfl rfl rfl rfl
  ⟨h.1, h.2 (by decide)⟩

theorem enhance_mock_eq (E : SvcEnv) (st : SvcState) (q : Txt)
    (hmock : st.useMockData = true) :
    enhanceSearchQuery E st q =
      (.shaped (generateMockSmartSearchResult q E.month E.day E.randTrend), 0, st) := by
  unfold enhanceSearchQuery enhanceBody
  by_cases hp : E.prod = true
  · simp [hp]
  · simp [hp, hmock]

theorem categorize_mock_eq (E : SvcEnv) (st : SvcState) (ps : List ProductLite)
    (hmock : st.useMockData = true) :
    categorizeProducts E st ps = (.shaped generateMockCategories, 0, st) := by
  unfold categorizeProducts categorizeBody
  simp [hmock]

theorem analyze_mock_eq (E : SvcEnv) (st : SvcState) (q : Txt) (ps : List ProductLite)
    (hmock : st.useMockData = true) :
    analyzeMarketTrends E st q ps =
      (.shaped (generateMockMarketAnalysis E.month E.day E.randTrend), 0, st) := by
  unfold analyzeMarketTrends analyzeBody
  simp [hmock]

theorem recommend_mock_eq (E : SvcEnv) (st : SvcState) (uq : Txt) (hist : List Txt)
    (hmock : st.useMockData = true) :
    getPersonalizedRecommendations E st uq hist = (.shaped generateMockRecommendations, 0, st) := by
  unfold getPersonalizedRecommendations recommendBody
  simp [hmock]

theorem makeApi_mock_eq (E : SvcEnv) (st : SvcState) (prompt : Txt)
    (hmock : st.useMockData = true) :
    makeApiRequest E st prompt = (.ok (mockShortCircuit E prompt), 0, st) := by
  unfold makeApiRequest
  by_cases hp : E.prod = true
  · simp [hp]
  · simp [hp, hmock]

theorem testApi_mock_eq (E : SvcEnv) (st : SvcState) (hmock : st.useMockData = true) :
    testApiConnection E st = (false, 0, st) := by
  unfold testApiConnection
  by_cases hp : E.prod = true
  · simp [hp]
  · simp [hp, hmock]

/-- Claim C2: once `useMockData` is true it stays true across every
modelled operation (the flag is one-directional), and in mock mode no
operation issues a single fetch. -/
theorem spec_C2 (E : SvcEnv) (st : SvcState) (q uq : Txt) (ps : List ProductLite)
    (hist : List Txt) (hmock : st.useMockData = true) :
    ((enhanceSearchQuery E st q).2.2.useMockData = true ∧ (enhanceSearchQuery E st q).2.1 = 0)
    ∧ ((categorizeProducts E st ps).2.2.useMockData = true ∧ (categorizeProducts E st ps).2.1 = 0)
    ∧ ((analyzeMarketTrends E st q ps).2.2.useMockData = true
        ∧ (analyzeMarketTrends E st q ps).2.1 = 0)
    ∧ ((getPersonalizedRecommendations E st uq hist).2.2.useMockData = true
        ∧ (getPersonalizedRecommendations E st uq hist).2.1 = 0)
    ∧ ((makeApiRequest E st q).2.2.useMockData = true ∧ (makeApiRequest E st q).2.1 = 0)
    ∧ ((testApiConnection E st).2.2.useMockData = true ∧ (testApiConnection E st).2.1 = 0)
    ∧ (forceMockMode E.prod st).useMockData = true := by
  refine ⟨?_, ?_, ?_, ?_, ?_, ?_, ?_⟩
  · rw [enhance_mock_eq E st q hmock]
    exact ⟨hmock, rfl⟩
  · rw [categorize_mock_eq E st ps hmock]
    exact ⟨hmock, rfl⟩
  · rw [analyze_mock_eq E st q ps hmock]
    exact ⟨hmock, rfl⟩
  · rw [recommend_mock_eq E st uq hist hmock]
    exact ⟨hmock, rfl⟩
  · rw [makeApi_mock_eq E st q hmock]
    exact ⟨hmock, rfl⟩
  · rw [testApi_mock_eq E st hmock]
    exact ⟨hmock, rfl⟩
  · unfold forceMockMode
    by_cases hp : E.prod = true
    · simp [hp, hmock]
    · simp [hp]

/-- Claim C2 (witness). -/
theorem spec_C2_witness :
    ((enhanceSearchQuery env429All stMock txtQ).2.2.useMockData = true
      ∧ (enhanceSearchQuery env429All stMock txtQ).2.1 = 0)
    ∧ (forceMockMode env429All.prod stMock).useMockData = true :=
  ⟨(spec_C2 env429All stMock txtQ txtQ [] [] rfl).1,
   (spec_C2 env429All stMock txtQ txtQ [] [] rfl).2.2.2.2.2.2⟩

theorem gdma_priceRange (q : Txt) (m d rt : Nat) :
    (generateDynamicMarketAnalysis q m d rt).priceRange =
      (if regexTestI pMAApple q && regexTestI pMAExpensive q then prAppleExp
       else if regexTestI pMAElectronics q && regexTestI pMAExpensive q then prElecExp
       else if regexTestI pMAElectronics q then prElec
       else if regexTestI pMAClothing q then prClothing
       else if regexTestI pMAHome q then prHome
       else if regexTestI pMABook q then prBook
       else prDefault) := rfl

theorem c8_apple_only_if (q : Txt) (m d rt : Nat)
    (h : (generateDynamicMarketAnalysis q m d rt).priceRange = prAppleExp) :
    regexTestI pMAExpensive q = true := by
  rw [gdma_priceRange] at h
  by_cases h1 : (regexTestI pMAApple q && regexTestI pMAExpensive q) = true
  · simp only [Bool.and_eq_true] at h1
    exact h1.2
  · rw [if_neg h1] at h
    split_ifs at h with h2 h3 h4 h5 h6
    · simp only [Bool.and_eq_true] at h2
      exact h2.2
    all_goals exact absurd h (by decide)

/-- Claim C8: with mock mode active, `enhanceSearchQuery("iphone")`
returns the mock result whose enhanced query is `iphone best deals 2024`,
whose first category is Electronics/Smartphones at confidence 0.95, and
whose price range is the plain electronics bracket, not the Apple/premium
bracket — the Apple/premium bracket requires the expensive keyword set,
which `iphone` does not match. -/
theorem spec_C8 (E : SvcEnv) (st : SvcState) (hmock : st.useMockData = true) :
    (enhanceSearchQuery E st iphoneQuery =
        (.shaped (generateMockSmartSearchResult iphoneQuery E.month E.day E.randTrend), 0, st)
      ∧ (generateMockSmartSearchResult iphoneQuery E.month E.day E.randTrend).enhancedQuery
          = iphoneEnhanced
      ∧ (generateMockSmartSearchResult iphoneQuery E.month E.day E.randTrend).categories.head?
          = some ⟨cElectronics, 0.95, some sSmartphones⟩
      ∧ (generateMockSmartSearchResult iphoneQuery E.month E.day E.randTrend).marketAnalysis.priceRange
          = prElec
      ∧ (generateMockSmartSearchResult iphoneQuery E.month E.day E.randTrend).marketAnalysis.priceRange
          ≠ prAppleExp)
    ∧ regexTestI pMAExpensive iphoneQuery = false
    ∧ ∀ q m d rt, (generateDynamicMarketAnalysis q m d rt).priceRange = prAppleExp →
        regexTestI pMAExpensive q = true := by
  refine ⟨⟨enhance_mock_eq E st iphoneQuery hmock, rfl, rfl, rfl, ?_⟩, by decide, ?_⟩
  · intro hc
    rw [show (generateMockSmartSearchResult iphoneQuery E.month E.day E.randTrend).marketAnalysis.priceRange
          = prElec from rfl] at hc
    exact absurd hc (by decide)
  intro q m d rt h
  exact c8_apple_only_if q m d rt h

/-- Claim C8 (witness): the Apple/premium bracket does force the expensive
keyword set, exhibited on `iphone pro`. -/
theorem spec_C8_witness : regexTestI pMAExpensive iphoneProQuery = true :=
  (spec_C8 env429All stMock rfl).2.2 iphoneProQuery 0 1 0 (by decide)

theorem enhanceBody_ok_shape (E : SvcEnv) (st : SvcState) (q : Txt) {o : FacOut SmartSearchResult}
    {fi : Nat} {st2 : SvcState} (h : enhanceBody E st q = (.ok o, fi, st2)) :
    (∃ r, o = FacOut.shaped r) ∨ ∃ j, o = FacOut.raw j ∧ jsTruthy j = true := by
  unfold enhanceBody at h
  split_ifs at h
  · simp only [Prod.mk.injEq, Except.ok.injEq] at h
    exact Or.inl ⟨_, h.1.symm⟩
  · simp only [Prod.mk.injEq, Except.ok.injEq] at h
    exact Or.inl ⟨_, h.1.symm⟩
  · split at h
    · split_ifs at h <;>
        (simp only [Prod.mk.injEq, Except.ok.injEq] at h
         exact Or.inl ⟨_, h.1.symm⟩)
    · split at h
      · split_ifs at h with hj
        · simp only [Prod.mk.injEq, Except.ok.injEq] at h
          exact Or.inr ⟨_, h.1.symm, hj⟩
        · simp only [Prod.mk.injEq, Except.ok.injEq] at h
          exact Or.inl ⟨_, h.1.symm⟩
      · simp only [Prod.mk.injEq, Except.ok.injEq] at h
        exact Or.inl ⟨_, h.1.symm⟩
    · simp only [Prod.mk.injEq] at h
      exact absurd h.1 (by simp)

theorem categorizeBody_ok_shape (E : SvcEnv) (st : SvcState) (ps : List ProductLite)
    {o : FacOut (List ProductCategory)} {fi : Nat} {st2 : SvcState}
    (h : categorizeBody E st ps = (.ok o, fi, st2)) :
    (∃ r, o = FacOut.shaped r) ∨ ∃ j, o = FacOut.raw j ∧ jsTruthy j = true := by
  unfold categorizeBody at h
  split_ifs at h
  · simp only [Prod.mk.injEq, Except.ok.injEq] at h
    exact Or.inl ⟨_, h.1.symm⟩
  · split at h
    · simp only [Prod.mk.injEq, Except.ok.injEq] at h
      exact Or.inl ⟨_, h.1.symm⟩
    · split at h
      · split_ifs at h with hj
        · simp only [Prod.mk.injEq, Except.ok.injEq] at h
          exact Or.inr ⟨_, h.1.symm, hj⟩
        · simp only [Prod.mk.injEq, Except.ok.injEq] at h
          exact Or.inl ⟨_, h.1.symm⟩
      · simp only [Prod.mk.injEq, Except.ok.injEq] at h
        exact Or.inl ⟨_, h.1.symm⟩
    · simp only [Prod.mk.injEq] at h
      exact absurd h.1 (by simp)

theorem analyzeBody_ok_shape (E : SvcEnv) (st : SvcState) (q : Txt) (ps : List ProductLite)
    {o : FacOut MarketAnalysis} {fi : Nat} {st2 : SvcState}
    (h : analyzeBody E st q ps = (.ok o, fi, st2)) :
    (∃ r, o = FacOut.shaped r) ∨ ∃ j, o = FacOut.raw j ∧ jsTruthy j = true := by
  unfold analyzeBody at h
  split_ifs at h
  · simp only [Prod.mk.injEq, Except.ok.injEq] at h
    exact Or.inl ⟨_, h.1.symm⟩
  · split at h
    · simp only [Prod.mk.injEq, Except.ok.injEq] at h
      exact Or.inl ⟨_, h.1.symm⟩
    · split at h
      · split_ifs at h with hj
        · simp only [Prod.mk.injEq, Except.ok.injEq] at h
          exact Or.inr ⟨_, h.1.symm, hj⟩
        · simp only [Prod.mk.injEq, Except.ok.injEq] at h
          exact Or.inl ⟨_, h.1.symm⟩
      · simp only [Prod.mk.injEq, Except.ok.injEq] at h
        exact Or.inl ⟨_, h.1.symm⟩
    · simp only [Prod.mk.injEq] at h
      exact absurd h.1 (by simp)

theorem recommendBody_ok_shape (E : SvcEnv) (st : SvcState) (uq : Txt) (hist : List Txt)
    {o : FacOut (List ProductRecommendation)} {fi : Nat} {st2 : SvcState}
    (h : recommendBody E st uq hist = (.ok o, fi, st2)) :
    (∃ r, o = FacOut.shaped r) ∨ ∃ j, o = FacOut.raw j ∧ jsTruthy j = true := by
  unfold recommendBody at h
  split_ifs at h
  · simp only [Prod.mk.injEq, Except.ok.injEq] at h
    exact Or.inl ⟨_, h.1.symm⟩
  · split at h
    · simp only [Prod.mk.injEq, Except.ok.injEq] at h
      exact Or.inl ⟨_, h.1.symm⟩
    · split at h
      · split_ifs at h with hj
        · simp only [Prod.mk.injEq, Except.ok.injEq] at h
          exact Or.inr ⟨_, h.1.symm, hj⟩
        · simp only [Prod.mk.injEq, Except.ok.injEq] at h
          exact Or.inl ⟨_, h.1.symm⟩
      · simp only [Prod.mk.injEq, Except.ok.injEq] at h
        exact Or.inl ⟨_, h.1.symm⟩
    · simp only [Prod.mk.injEq] at h
      exact absurd h.1 (by simp)

theorem enhance_total (E : SvcEnv) (st : SvcState) (q : Txt) :
    (∃ r, (enhanceSearchQuery E st q).1 = FacOut.shaped r)
    ∨ ∃ j, (enhanceSearchQuery E st q).1 = FacOut.raw j ∧ jsTruthy j = true := by
  unfold enhanceSearchQuery
  split
  · next o fi st2 heq => simpa using enhanceBody_ok_shape E st q heq
  · exact Or.inl ⟨_, rfl⟩

theorem categorize_total (E : SvcEnv) (st : SvcState) (ps : List ProductLite) :
    (∃ r, (categorizeProducts E st ps).1 = FacOut.shaped r)
    ∨ ∃ j, (categorizeProducts E st ps).1 = FacOut.raw j ∧ jsTruthy j = true := by
  unfold categorizeProducts
  split
  · next o fi st2 heq => simpa using categorizeBody_ok_shape E st ps heq
  · exact Or.inl ⟨_, rfl⟩

theorem analyze_total (E : SvcEnv) (st : SvcState) (q : Txt) (ps : List ProductLite) :
    (∃ r, (analyzeMarketTrends E st q ps).1 = FacOut.shaped r)
    ∨ ∃ j, (analyzeMarketTrends E st q ps).1 = FacOut.raw j ∧ jsTruthy j = true := by
  unfold analyzeMarketTrends
  split
  · next o fi st2 heq => simpa using analyzeBody_ok_shape E st q ps heq
  · exact Or.inl ⟨_, rfl⟩

theorem recommend_total (E : SvcEnv) (st : SvcState) (uq : Txt) (hist : List Txt) :
    (∃ r, (getPersonalizedRecommendations E st uq hist).1 = FacOut.shaped r)
    ∨ ∃ j, (getPersonalizedRecommendations E st uq hist).1 = FacOut.raw j ∧ jsTruthy j = true := by
  unfold getPersonalizedRecommendations
  split
  · next o fi st2 heq => simpa using recommendBody_ok_shape E st uq hist heq
  · exact Or.inl ⟨_, rfl⟩

theorem enhance_catch (E : SvcEnv) (st : SvcState) (q : Txt) {e : JsError} {fi : Nat}
    {st2 : SvcState} (h : enhanceBody E st q = (.error e, fi, st2)) :
    enhanceSearchQuery E st q =
      (.shaped (generateMockSmartSearchResult q E.month E.day E.randTrend), fi, st2) := by
  unfold enhanceSearchQuery
  rw [h]

theorem categorize_catch (E : SvcEnv) (st : SvcState) (ps : List ProductLite) {e : JsError}
    {fi : Nat} {st2 : SvcState} (h : categorizeBody E st ps = (.error e, fi, st2)) :
    categorizeProducts E st ps = (.shaped generateMockCategories, fi, st2) := by
  unfold categorizeProducts
  rw [h]

theorem analyze_catch (E : SvcEnv) (st : SvcState) (q : Txt) (ps : List ProductLite)
    {e : JsError} {fi : Nat} {st2 : SvcState}
    (h : analyzeBody E st q ps = (.error e, fi, st2)) :
    analyzeMarketTrends E st q ps =
      (.shaped (generateMockMarketAnalysis E.month E.day E.randTrend), fi, st2) := by
  unfold analyzeMarketTrends
  rw [h]

theorem recommend_catch (E : SvcEnv) (st : SvcState) (uq : Txt) (hist : List Txt)
    {e : JsError} {fi : Nat} {st2 : SvcState}
    (h : recommendBody E st uq hist = (.error e, fi, st2)) :
    getPersonalizedRecommendations E st uq hist =
      (.shaped generateMockRecommendations, fi, st2) := by
  unfold getPersonalizedRecommendations
  rw [h]

/-- Claim C1 (amended): each of the four façade operations is total —
its result is always either a typed, fully-shaped value (every mock path)
or a JSON value recovered from model output and returned without shape
validation — and whenever the operation's body fails internally, the
corresponding mock-synthesis result is substituted. -/
theorem spec_C1_amended (E : SvcEnv) (st : SvcState) (q uq : Txt) (ps : List ProductLite)
    (hist : List Txt) :
    ((∃ r, (enhanceSearchQuery E st q).1 = FacOut.shaped r)
      ∨ ∃ j, (enhanceSearchQuery E st q).1 = FacOut.raw j ∧ jsTruthy j = true)
    ∧ (∀ e fi st2, enhanceBody E st q = (.error e, fi, st2) →
        enhanceSearchQuery E st q =
          (.shaped (generateMockSmartSearchResult q E.month E.day E.randTrend), fi, st2))
    ∧ ((∃ r, (categorizeProducts E st ps).1 = FacOut.shaped r)
      ∨ ∃ j, (categorizeProducts E st ps).1 = FacOut.raw j ∧ jsTruthy j = true)
    ∧ (∀ e fi st2, categorizeBody E st ps = (.error e, fi, st2) →
        categorizeProducts E st ps = (.shaped generateMockCategories, fi, st2))
    ∧ ((∃ r, (analyzeMarketTrends E st q ps).1 = FacOut.shaped r)
      ∨ ∃ j, (analyzeMarketTrends E st q ps).1 = FacOut.raw j ∧ jsTruthy j = true)
    ∧ (∀ e fi st2, analyzeBody E st q ps = (.error e, fi, st2) →
        analyzeMarketTrends E st q ps =
          (.shaped (generateMockMarketAnalysis E.month E.day E.randTrend), fi, st2))
    ∧ ((∃ r, (getPersonalizedRecommendations E st uq hist).1 = FacOut.shaped r)
      ∨ ∃ j, (getPersonalizedRecommendations E st uq hist).1 = FacOut.raw j ∧ jsTruthy j = true)
    ∧ (∀ e fi st2, recommendBody E st uq hist = (.error e, fi, st2) →
        getPersonalizedRecommendations E st uq hist =
          (.shaped generateMockRecommendations, fi, st2)) :=
  ⟨enhance_total E st q,
   fun _ _ _ h => enhance_catch E st q h,
   categorize_total E st ps,
   fun _ _ _ h => categorize_catch E st ps h,
   analyze_total E st q ps,
   fun _ _ _ h => analyze_catch E st q ps h,
   recommend_total E st uq hist,
   fun _ _ _ h => recommend_catch E st uq hist h⟩

/-- Claim C1 (witness): offline, the body fails with the rewritten
no-internet error and the façade substitutes the mock result. -/
theorem spec_C1_amended_witness :
    enhanceSearchQuery envOffline stLive txtQ =
      (.shaped (generateMockSmartSearchResult txtQ envOffline.month envOffline.day
        envOffline.randTrend), 0, stLive) :=
  (spec_C1_amended envOffline stLive txtQ txtQ [] []).2.1
    ⟨.genericName, msgNoInternet⟩ 0 stLive rfl

/-- Claim C1 (counterexample): with a live backend whose model output is
the JSON text `[1]`, `enhanceSearchQuery` returns the recovered array
unvalidated — a result that is not a fully-shaped `SmartSearchResult`. -/
theorem spec_C1_counterexample :
    (enhanceSearchQuery envArr stLive txtQ).1 = FacOut.raw (JsonVal.arr [JsonVal.num 1])
    ∧ facOutIsShapedPerSpec (enhanceSearchQuery envArr stLive txtQ).1 = false :=
  ⟨rfl, rfl⟩
